import Mathlib

/-!
# AdvancedShaders: a shallow embedding of the Model / Mesh / texture loading code

Sources embedded here: `Model.h`, `Mesh.h`, the constructor of `Shader.h` with
`checkCompileErrors`, and the parts of `main.cpp` that the properties below talk about
(`loadTexture`, `processInput`, the tangent computation and the attribute set-up of
`renderQuad`).

Modelling conventions.

* Calls into OpenGL, stb_image and `std::cout` are recorded, in program order, in a
  trace (`World`).  Values that the outside world hands back (generated object names,
  decoded images, the imported scene) come from an `Env` of oracles; the name oracles
  see the whole trace so far, so nothing is assumed about the names they return.
* `std::vector` is `List`, `push_back` appends at the end.  Loop counters are
  `unsigned int` in the source; vectors are taken to hold fewer than `2^32`
  elements, so that the counters never wrap.
* Indexing outside an array (`scene->mMeshes[k]`, `mesh->mNormals[i]`, ...) has no
  defined behaviour in C++; the embedding returns `none` there.
* The `float` coordinates of vertex data and of `renderQuad` are exact rationals (the
  values that occur there are exact in binary32).  `heightScale` and the `float`
  literals of `processInput` are IEEE binary32 values, held as integer multiples of
  `2^-149`, with round-to-nearest-even in every addition, subtraction and conversion.
* Opening a file and reading it are told apart (`FileRead`): the stream objects of
  `Shader.h` throw on a failed open only.
* Strings are texts without an embedded NUL, so a `std::string`, an `aiString` and
  their `const char*` views (`c_str()`, `data()`, `C_Str()`) are one and the same
  `String`.
-/

namespace AdvancedShaders

/-! ## Strings -/

/-- `std::strcmp` on two C strings: zero exactly when they are equal, otherwise the
sign of their lexicographic comparison. -/
def strcmp (a b : String) : Int :=
  if a = b then 0 else if a < b then -1 else 1

/-- `std::string::find_last_of(c)`: the position of the last occurrence of `c`,
`none` standing for `npos`. -/
def find_last_of_aux (c : Char) : List Char → Nat → Option Nat → Option Nat
  | [], _, last => last
  | x :: xs, i, last => find_last_of_aux c xs (i + 1) (if x = c then some i else last)

/-- `path.find_last_of(c)`. -/
def find_last_of (s : String) (c : Char) : Option Nat :=
  find_last_of_aux c s.data 0 none

/-- `s.substr(0, n)`, where `n = none` is `npos` (the whole string). -/
def substr0 (s : String) : Option Nat → String
  | none => s
  | some n => ⟨s.data.take n⟩

/-! ## OpenGL vocabulary and the trace of external calls -/

/-- The OpenGL enumerants that the code passes around. -/
inductive GLenum where
  | GL_RED | GL_RGB | GL_RGBA
  | GL_TEXTURE_2D | GL_UNSIGNED_BYTE
  | GL_TEXTURE_WRAP_S | GL_TEXTURE_WRAP_T | GL_TEXTURE_MIN_FILTER | GL_TEXTURE_MAG_FILTER
  | GL_REPEAT | GL_LINEAR_MIPMAP_LINEAR | GL_LINEAR
  | GL_ARRAY_BUFFER | GL_ELEMENT_ARRAY_BUFFER | GL_STATIC_DRAW
  | GL_FLOAT | GL_FALSE | GL_TRIANGLES | GL_UNSIGNED_INT
  | GL_VERTEX_SHADER | GL_FRAGMENT_SHADER | GL_GEOMETRY_SHADER
  | GL_COMPILE_STATUS | GL_LINK_STATUS
  deriving DecidableEq, Repr

/-- The value of `GL_TEXTURE0` in the OpenGL headers (`0x84C0`); texture unit `i` is
selected with `GL_TEXTURE0 + i`. -/
def GL_TEXTURE0 : Nat := 0x84C0

/-- One observable call made by the program, with its arguments.  A local variable
that was never assigned (`GLenum format;`) is passed as `none`. -/
inductive Event where
  /-- Entry into `TextureFromFile(path, directory)` (bookkeeping, not a GL call). -/
  | call_TextureFromFile (path directory : String)
  | glGenTextures (name : Nat)
  | stbi_load (filename : String)
  | stbi_image_free
  | glBindTexture (target : GLenum) (texture : Nat)
  | glTexImage2D (target : GLenum) (level : Nat) (internalformat : Option GLenum)
      (width height : Int) (border : Nat) (format : Option GLenum) (type : GLenum)
  | glGenerateMipmap (target : GLenum)
  | glTexParameteri (target pname param : GLenum)
  | cout (text : String)
  | glActiveTexture (texture : Nat)
  | glGetUniformLocation (program : Nat) (name : String)
  | glUniform1i (location : Int) (v0 : Nat)
  | glGenVertexArrays (name : Nat)
  | glGenBuffers (name : Nat)
  | glBindVertexArray (array : Nat)
  | glBindBuffer (target : GLenum) (buffer : Nat)
  | glBufferData (target : GLenum) (size : Nat) (usage : GLenum)
  | glEnableVertexAttribArray (index : Nat)
  | glVertexAttribPointer (index size : Nat) (type normalized : GLenum)
      (stride pointer : Nat)
  | glDrawElements (mode : GLenum) (count : Nat) (type : GLenum)
  | ifstream_open (path : String)
  | glCreateShader (type : GLenum) (name : Nat)
  | glShaderSource (shader : Nat) (source : String)
  | glCompileShader (shader : Nat)
  | glGetShaderiv (shader : Nat) (pname : GLenum) (params : Int)
  | glGetShaderInfoLog (shader : Nat) (infoLog : String)
  | glCreateProgram (name : Nat)
  | glAttachShader (program shader : Nat)
  | glLinkProgram (program : Nat)
  | glGetProgramiv (program : Nat) (pname : GLenum) (params : Int)
  | glGetProgramInfoLog (program : Nat) (infoLog : String)
  | glDeleteShader (shader : Nat)
  deriving DecidableEq, Repr

/-- The trace of external calls so far, oldest first. -/
abbrev World := List Event

/-- What `stbi_load` reports for a decoded image. -/
structure Image where
  width : Int
  height : Int
  nrComponents : Int
  deriving DecidableEq, Repr

/-! ## The imported scene (the parts of Assimp's data structures that the code reads) -/

/-- Assimp's `aiVector3D`. -/
structure aiVector3D where
  x : ℚ
  y : ℚ
  z : ℚ
  deriving DecidableEq, Repr

/-- Assimp's `aiFace`: `mIndices` with `mNumIndices = mIndices.length`. -/
structure aiFace where
  mIndices : List Nat
  deriving DecidableEq, Repr

/-- Assimp's `aiMesh`.  The per-vertex arrays are stored separately from
`mNumVertices`, as in Assimp; an absent array (null pointer) is the empty list.
`mTextureCoords0` is `mTextureCoords[0]`, `none` when that pointer is null.
`mNumFaces = mFaces.length`. -/
structure aiMesh where
  mNumVertices : Nat
  mVertices : List aiVector3D
  mNormals : List aiVector3D
  mTextureCoords0 : Option (List aiVector3D)
  mTangents : List aiVector3D
  mBitangents : List aiVector3D
  mFaces : List aiFace
  mMaterialIndex : Nat
  deriving DecidableEq, Repr

/-- Assimp's `aiTextureType`. -/
inductive aiTextureType where
  | aiTextureType_NONE | aiTextureType_DIFFUSE | aiTextureType_SPECULAR
  | aiTextureType_AMBIENT | aiTextureType_EMISSIVE | aiTextureType_HEIGHT
  | aiTextureType_NORMALS | aiTextureType_SHININESS | aiTextureType_OPACITY
  | aiTextureType_DISPLACEMENT | aiTextureType_LIGHTMAP | aiTextureType_REFLECTION
  | aiTextureType_UNKNOWN
  deriving DecidableEq, Repr

/-- Assimp's `aiMaterial`, as far as the code reads it: for every texture type the
paths of the textures in that slot.  `GetTextureCount(type)` is the length of
`GetTextures type` and `GetTexture(type, i, &str)` stores its `i`-th entry in `str`. -/
structure aiMaterial where
  GetTextures : aiTextureType → List String

/-- `mat->GetTextureCount(type)`. -/
def aiMaterial.GetTextureCount (mat : aiMaterial) (type : aiTextureType) : Nat :=
  (mat.GetTextures type).length

/-- Assimp's `aiNode`: indices into the scene's mesh array (`mNumMeshes` is the
length of `mMeshes`) and the child nodes (`mNumChildren` is the length of
`mChildren`). -/
inductive aiNode where
  | mk (mMeshes : List Nat) (mChildren : List aiNode)

/-- The field `node->mMeshes`. -/
def aiNode.mMeshes : aiNode → List Nat
  | .mk ms _ => ms

/-- The field `node->mChildren`. -/
def aiNode.mChildren : aiNode → List aiNode
  | .mk _ cs => cs

/-- The field `node->mNumMeshes`. -/
def aiNode.mNumMeshes (n : aiNode) : Nat := n.mMeshes.length

/-- Assimp's `aiScene`. -/
structure aiScene where
  mFlags : Nat
  mRootNode : Option aiNode
  mMeshes : List aiMesh
  mMaterials : List aiMaterial

/-- The value of `AI_SCENE_FLAGS_INCOMPLETE` in Assimp's headers. -/
def AI_SCENE_FLAGS_INCOMPLETE : Nat := 0x1

/-- What an `Assimp::Importer` holds after `ReadFile`: the scene pointer (`none` is
the null pointer) and the text returned by `GetErrorString()`. -/
structure Importer where
  scene : Option aiScene
  GetErrorString : String

/-- What happens to a `std::ifstream` whose exception mask holds `failbit` and
`badbit` when the constructor of `Shader` uses it.  `openFails`: `open` sets `failbit`
and the stream throws `std::ifstream::failure`.  `opened text readOk`: `open` succeeds
and `stream << file.rdbuf()` moves `text` into the string stream; when the transfer
stops on a read error, or moves nothing, `readOk` is false: that sets `failbit` on the
string stream, whose exception mask is empty, so nothing is thrown.  `close` on an
opened file is taken to succeed. -/
inductive FileRead where
  | openFails
  | opened (text : String) (readOk : Bool)
  deriving DecidableEq, Repr

/-- The outside world as seen by the program.  Object names, status values and info
logs handed out by OpenGL may depend on everything that happened before.  `ifstream`
says what opening and reading the file of a given path does. -/
structure Env where
  glGenTextures : World → Nat
  glGenVertexArrays : World → Nat
  glGenBuffers : World → Nat
  glGetUniformLocation : Nat → String → Int
  stbi_load : String → Option Image
  ReadFile : String → Importer
  ifstream : String → FileRead
  glCreateShader : World → GLenum → Nat
  glCreateProgram : World → Nat
  glGetShaderiv : World → Nat → Int
  glGetProgramiv : World → Nat → Int
  glGetShaderInfoLog : World → Nat → String
  glGetProgramInfoLog : World → Nat → String

/-! ## Mesh.h -/

/-- The type `glm::vec3`. -/
structure vec3 where
  x : ℚ
  y : ℚ
  z : ℚ
  deriving DecidableEq, Repr

/-- The type `glm::vec2`. -/
structure vec2 where
  x : ℚ
  y : ℚ
  deriving DecidableEq, Repr

/-- The record `struct Vertex` of Mesh.h. -/
structure Vertex where
  Position : vec3
  Normal : vec3
  TexCoords : vec2
  Tangent : vec3
  Bitangent : vec3
  deriving DecidableEq, Repr

/-- The record `struct Texture` of Mesh.h. -/
structure Texture where
  id : Nat
  type : String
  path : String
  deriving DecidableEq, Repr

/-- The class `Shader`, as far as `Mesh::Draw` reads it. -/
structure Shader where
  ID : Nat
  deriving DecidableEq, Repr

/-- The class `Mesh`. -/
structure Mesh where
  vertices : List Vertex
  indices : List Nat
  textures : List Texture
  VAO : Nat
  VBO : Nat
  EBO : Nat
  deriving DecidableEq, Repr

/-- The value of `sizeof(float)`. -/
def sizeof_float : Nat := 4

/-- The value of `sizeof(unsigned int)`. -/
def sizeof_unsigned_int : Nat := 4

/-- The members of `struct Vertex` in declaration order, each with its number of
`float` components (`glm::vec3` has three, `glm::vec2` two). -/
def Vertex.members : List (String × Nat) :=
  [("Position", 3), ("Normal", 3), ("TexCoords", 2), ("Tangent", 3), ("Bitangent", 3)]

/-- The value of `sizeof(Vertex)` for tightly packed members. -/
def sizeof_Vertex : Nat :=
  (Vertex.members.map (fun f => f.2 * sizeof_float)).sum

/-- The value of `offsetof(Vertex, member)` for tightly packed members: the sizes of
the members declared before it. -/
def offsetof_Vertex (member : String) : Nat :=
  ((Vertex.members.takeWhile (fun f => f.1 ≠ member)).map (fun f => f.2 * sizeof_float)).sum

/-- The method `Mesh::setupMesh` on a mesh whose data members are already assigned:
generates the three object names, uploads both buffers and configures the five
attribute slots.  Returns the mesh with `VAO`, `VBO`, `EBO` filled in. -/
def Mesh.setupMesh (env : Env) (self : Mesh) (w : World) : Mesh × World :=
  let VAO := env.glGenVertexArrays w
  let w := w ++ [Event.glGenVertexArrays VAO]
  let VBO := env.glGenBuffers w
  let w := w ++ [Event.glGenBuffers VBO]
  let EBO := env.glGenBuffers w
  let w := w ++ [Event.glGenBuffers EBO]
  ({ self with VAO := VAO, VBO := VBO, EBO := EBO },
   w ++ [ Event.glBindVertexArray VAO,
          Event.glBindBuffer .GL_ARRAY_BUFFER VBO,
          Event.glBufferData .GL_ARRAY_BUFFER (self.vertices.length * sizeof_Vertex)
            .GL_STATIC_DRAW,
          Event.glBindBuffer .GL_ELEMENT_ARRAY_BUFFER EBO,
          Event.glBufferData .GL_ELEMENT_ARRAY_BUFFER
            (self.indices.length * sizeof_unsigned_int) .GL_STATIC_DRAW,
          Event.glEnableVertexAttribArray 0,
          Event.glVertexAttribPointer 0 3 .GL_FLOAT .GL_FALSE sizeof_Vertex 0,
          Event.glEnableVertexAttribArray 1,
          Event.glVertexAttribPointer 1 3 .GL_FLOAT .GL_FALSE sizeof_Vertex
            (offsetof_Vertex "Normal"),
          Event.glEnableVertexAttribArray 2,
          Event.glVertexAttribPointer 2 2 .GL_FLOAT .GL_FALSE sizeof_Vertex
            (offsetof_Vertex "TexCoords"),
          Event.glEnableVertexAttribArray 3,
          Event.glVertexAttribPointer 3 3 .GL_FLOAT .GL_FALSE sizeof_Vertex
            (offsetof_Vertex "Tangent"),
          Event.glEnableVertexAttribArray 4,
          Event.glVertexAttribPointer 4 3 .GL_FLOAT .GL_FALSE sizeof_Vertex
            (offsetof_Vertex "Bitangent"),
          Event.glBindVertexArray 0 ])

/-- The constructor `Mesh(vertices, indices, textures)`: stores the three vectors
and calls `setupMesh`. -/
def Mesh.new (env : Env) (vertices : List Vertex) (indices : List Nat)
    (textures : List Texture) (w : World) : Mesh × World :=
  Mesh.setupMesh env
    { vertices := vertices, indices := indices, textures := textures,
      VAO := 0, VBO := 0, EBO := 0 } w

/-- The four counters of `Mesh::Draw`. -/
structure DrawCounters where
  diffuseNr : Nat
  specularNr : Nat
  normalNr : Nat
  heightNr : Nat
  deriving DecidableEq, Repr

/-- The `if`/`else if` chain of `Mesh::Draw` for a texture of type `name`: the text
assigned to `number` (empty when no branch is taken) and the counters after the
post-increment.  `std::to_string` of an `unsigned int` is its decimal numeral. -/
def Mesh.Draw_number (name : String) (c : DrawCounters) : String × DrawCounters :=
  if name = "texture_diffuse" then
    (toString c.diffuseNr, { c with diffuseNr := c.diffuseNr + 1 })
  else if name = "texture_specular" then
    (toString c.specularNr, { c with specularNr := c.specularNr + 1 })
  else if name = "texture_normal" then
    (toString c.normalNr, { c with normalNr := c.normalNr + 1 })
  else if name = "texture_height" then
    (toString c.heightNr, { c with heightNr := c.heightNr + 1 })
  else
    ("", c)

/-- The texture loop of `Mesh::Draw`, from index `i` on, over the textures that are
left; returns the calls it makes. -/
def Mesh.Draw_loop (env : Env) (shader : Shader) : List Texture → Nat → DrawCounters → List Event
  | [], _, _ => []
  | t :: rest, i, c =>
    let name := t.type
    let r := Mesh.Draw_number name c
    let number := r.1
    [ Event.glActiveTexture (GL_TEXTURE0 + i),
      Event.glGetUniformLocation shader.ID (name ++ number),
      Event.glUniform1i (env.glGetUniformLocation shader.ID (name ++ number)) i,
      Event.glBindTexture .GL_TEXTURE_2D t.id ]
    ++ Mesh.Draw_loop env shader rest (i + 1) r.2

/-- The method `Mesh::Draw(shader)`. -/
def Mesh.Draw (env : Env) (self : Mesh) (shader : Shader) (w : World) : World :=
  w ++ Mesh.Draw_loop env shader self.textures 0
        { diffuseNr := 1, specularNr := 1, normalNr := 1, heightNr := 1 }
    ++ [ Event.glBindVertexArray self.VAO,
         Event.glDrawElements .GL_TRIANGLES self.indices.length .GL_UNSIGNED_INT,
         Event.glBindVertexArray 0 ]

/-! ## Model.h -/

/-- The function `TextureFromFile(path, directory)` of Model.h (the `gamma` argument
is never read). -/
def TextureFromFile (env : Env) (path directory : String) (w : World) : Nat × World :=
  let w := w ++ [Event.call_TextureFromFile path directory]
  let filename := path
  let filename := directory ++ "/" ++ filename
  let textureID := env.glGenTextures w
  let w := w ++ [Event.glGenTextures textureID, Event.stbi_load filename]
  match env.stbi_load filename with
  | some data =>
    let format : Option GLenum :=
      if data.nrComponents = 1 then some .GL_RED
      else if data.nrComponents = 3 then some .GL_RGB
      else if data.nrComponents = 4 then some .GL_RGBA
      else none
    (textureID,
     w ++ [ Event.glBindTexture .GL_TEXTURE_2D textureID,
            Event.glTexImage2D .GL_TEXTURE_2D 0 format data.width data.height 0 format
              .GL_UNSIGNED_BYTE,
            Event.glGenerateMipmap .GL_TEXTURE_2D,
            Event.glTexParameteri .GL_TEXTURE_2D .GL_TEXTURE_WRAP_S .GL_REPEAT,
            Event.glTexParameteri .GL_TEXTURE_2D .GL_TEXTURE_WRAP_T .GL_REPEAT,
            Event.glTexParameteri .GL_TEXTURE_2D .GL_TEXTURE_MIN_FILTER
              .GL_LINEAR_MIPMAP_LINEAR,
            Event.glTexParameteri .GL_TEXTURE_2D .GL_TEXTURE_MAG_FILTER .GL_LINEAR,
            Event.stbi_image_free ])
  | none =>
    (textureID,
     w ++ [ Event.cout ("Texture failed to load at path: " ++ path ++ "\n"),
            Event.stbi_image_free ])

/-- The class `Model`. -/
structure Model where
  textures_loaded : List Texture
  meshes : List Mesh
  directory : String
  gammaCorrection : Bool

/-- The inner loop of `loadMaterialTextures`: the first entry of `textures_loaded`
whose path compares equal to `str` (`break` at the first match), `none` when the
loop ends with `skip` still false. -/
def Model.loadMaterialTextures_find (str : String) : List Texture → Option Texture
  | [] => none
  | t :: rest =>
    if strcmp t.path str = 0 then some t else Model.loadMaterialTextures_find str rest

/-- One iteration of the outer loop of `loadMaterialTextures`, for the material
texture path `str`; `textures` is the local result vector. -/
def Model.loadMaterialTextures_body (env : Env) (typeName : String)
    (s : List Texture × Model × World) (str : String) : List Texture × Model × World :=
  match Model.loadMaterialTextures_find str s.2.1.textures_loaded with
  | some t => (s.1 ++ [t], s.2.1, s.2.2)
  | none =>
    let r := TextureFromFile env str s.2.1.directory s.2.2
    let texture : Texture := { id := r.1, type := typeName, path := str }
    (s.1 ++ [texture],
     { s.2.1 with textures_loaded := s.2.1.textures_loaded ++ [texture] },
     r.2)

/-- The method `Model::loadMaterialTextures(mat, type, typeName)`: returns the local
vector `textures` together with the updated model and trace. -/
def Model.loadMaterialTextures (env : Env) (mat : aiMaterial) (type : aiTextureType)
    (typeName : String) (self : Model) (w : World) : List Texture × Model × World :=
  (mat.GetTextures type).foldl (Model.loadMaterialTextures_body env typeName) ([], self, w)

/-- The texture-coordinate branch of the vertex loop of `processMesh` for index `i`:
`mTextureCoords[0][i]` when `mTextureCoords[0]` is not null, else `(0, 0)`. -/
def Model.processMesh_texCoords (mesh : aiMesh) (i : Nat) : Option vec2 :=
  match mesh.mTextureCoords0 with
  | some coords => (coords[i]?).map (fun c => { x := c.x, y := c.y })
  | none => some { x := 0, y := 0 }

/-- The body of the vertex loop of `processMesh` for index `i`. -/
def Model.processMesh_vertex (mesh : aiMesh) (i : Nat) : Option Vertex := do
  let p ← mesh.mVertices[i]?
  let n ← mesh.mNormals[i]?
  let tc ← Model.processMesh_texCoords mesh i
  let t ← mesh.mTangents[i]?
  let b ← mesh.mBitangents[i]?
  pure { Position := { x := p.x, y := p.y, z := p.z },
         Normal := { x := n.x, y := n.y, z := n.z },
         TexCoords := tc,
         Tangent := { x := t.x, y := t.y, z := t.z },
         Bitangent := { x := b.x, y := b.y, z := b.z } }

/-- The vertex loop of `processMesh`: `k` iterations are left and the next index is
`i`; returns the vertices pushed by these iterations. -/
def Model.processMesh_vertices (mesh : aiMesh) : Nat → Nat → Option (List Vertex)
  | 0, _ => some []
  | k + 1, i => do
    let v ← Model.processMesh_vertex mesh i
    let vs ← Model.processMesh_vertices mesh k (i + 1)
    pure (v :: vs)

/-- The face loop of `processMesh`: every index of every face, pushed in order. -/
def Model.processMesh_indices : List aiFace → List Nat
  | [] => []
  | face :: rest => face.mIndices ++ Model.processMesh_indices rest

/-- The material part of `processMesh`: the four `loadMaterialTextures` calls, each
result inserted at the end of the local vector `textures`. -/
def Model.processMesh_textures (env : Env) (material : aiMaterial) (self : Model)
    (w : World) : List Texture × Model × World :=
  let textures : List Texture := []
  let r := Model.loadMaterialTextures env material .aiTextureType_DIFFUSE
    "texture_diffuse" self w
  let diffuseMaps := r.1
  let textures := textures ++ diffuseMaps
  let r := Model.loadMaterialTextures env material .aiTextureType_SPECULAR
    "texture_specular" r.2.1 r.2.2
  let specularMaps := r.1
  let textures := textures ++ specularMaps
  let r := Model.loadMaterialTextures env material .aiTextureType_HEIGHT
    "texture_normal" r.2.1 r.2.2
  let normalMaps := r.1
  let textures := textures ++ normalMaps
  let r := Model.loadMaterialTextures env material .aiTextureType_AMBIENT
    "texture_height" r.2.1 r.2.2
  let heightMaps := r.1
  let textures := textures ++ heightMaps
  (textures, r.2.1, r.2.2)

/-- The method `Model::processMesh(mesh, scene)`: the vertex loop, the face loop, the
material look-up `scene->mMaterials[mesh->mMaterialIndex]` with the four texture
loads, and the construction of the `Mesh`. -/
def Model.processMesh (env : Env) (mesh : aiMesh) (scene : aiScene) (self : Model)
    (w : World) : Option (Mesh × Model × World) :=
  match Model.processMesh_vertices mesh mesh.mNumVertices 0 with
  | none => none
  | some vertices =>
    let indices := Model.processMesh_indices mesh.mFaces
    match scene.mMaterials[mesh.mMaterialIndex]? with
    | none => none
    | some material =>
      let r := Model.processMesh_textures env material self w
      let m := Mesh.new env vertices indices r.1 r.2.2
      some (m.1, r.2.1, m.2)

/-- The first loop of `processNode`: every mesh index stored at the node is looked up
in `scene->mMeshes`, processed, and the result pushed onto `meshes`. -/
def Model.processNode_meshes (env : Env) (scene : aiScene) :
    List Nat → Model → World → Option (Model × World)
  | [], self, w => some (self, w)
  | k :: rest, self, w =>
    match scene.mMeshes[k]? with
    | none => none
    | some mesh =>
      match Model.processMesh env mesh scene self w with
      | none => none
      | some r =>
        Model.processNode_meshes env scene rest
          { r.2.1 with meshes := r.2.1.meshes ++ [r.1] } r.2.2

mutual
/-- The method `Model::processNode(node, scene)`. -/
def Model.processNode (env : Env) (scene : aiScene) :
    aiNode → Model → World → Option (Model × World)
  | .mk mMeshes mChildren, self, w =>
    match Model.processNode_meshes env scene mMeshes self w with
    | none => none
    | some r => Model.processNode_children env scene mChildren r.1 r.2
/-- The second loop of `processNode`: the children, in order. -/
def Model.processNode_children (env : Env) (scene : aiScene) :
    List aiNode → Model → World → Option (Model × World)
  | [], self, w => some (self, w)
  | child :: rest, self, w =>
    match Model.processNode env scene child self w with
    | none => none
    | some r => Model.processNode_children env scene rest r.1 r.2
end

/-- The method `Model::loadModel(path)`. -/
def Model.loadModel (env : Env) (path : String) (self : Model) (w : World) :
    Option (Model × World) :=
  let importer := env.ReadFile path
  match importer.scene with
  | none => some (self, w ++ [Event.cout ("ERROR::ASSIMP:: " ++ importer.GetErrorString ++ "\n")])
  | some scene =>
    if scene.mFlags &&& AI_SCENE_FLAGS_INCOMPLETE ≠ 0 then
      some (self, w ++ [Event.cout ("ERROR::ASSIMP:: " ++ importer.GetErrorString ++ "\n")])
    else
      match scene.mRootNode with
      | none =>
        some (self, w ++ [Event.cout ("ERROR::ASSIMP:: " ++ importer.GetErrorString ++ "\n")])
      | some root =>
        let self := { self with directory := substr0 path (find_last_of path '/') }
        Model.processNode env scene root self w

/-- The constructor `Model(path, gamma)`: the vectors and `directory` start empty,
`gammaCorrection` is initialised, then `loadModel(path)` runs. -/
def Model.new (env : Env) (path : String) (gamma : Bool) (w : World) :
    Option (Model × World) :=
  Model.loadModel env path
    { textures_loaded := [], meshes := [], directory := "", gammaCorrection := gamma } w

/-- The method `Model::Draw(shader)`: draws every mesh in order. -/
def Model.Draw (env : Env) (self : Model) (shader : Shader) (w : World) : World :=
  self.meshes.foldl (fun w mesh => Mesh.Draw env mesh shader w) w

/-! ## main.cpp -/

/-- The function `loadTexture(path)` of main.cpp. -/
def loadTexture (env : Env) (path : String) (w : World) : Nat × World :=
  let textureID := env.glGenTextures w
  let w := w ++ [Event.glGenTextures textureID, Event.stbi_load path]
  match env.stbi_load path with
  | some data =>
    let format : Option GLenum :=
      if data.nrComponents = 1 then some .GL_RED
      else if data.nrComponents = 3 then some .GL_RGB
      else if data.nrComponents = 4 then some .GL_RGBA
      else none
    (textureID,
     w ++ [ Event.glBindTexture .GL_TEXTURE_2D textureID,
            Event.glTexImage2D .GL_TEXTURE_2D 0 format data.width data.height 0 format
              .GL_UNSIGNED_BYTE,
            Event.glGenerateMipmap .GL_TEXTURE_2D,
            Event.glTexParameteri .GL_TEXTURE_2D .GL_TEXTURE_WRAP_S .GL_REPEAT,
            Event.glTexParameteri .GL_TEXTURE_2D .GL_TEXTURE_WRAP_T .GL_REPEAT,
            Event.glTexParameteri .GL_TEXTURE_2D .GL_TEXTURE_MIN_FILTER
              .GL_LINEAR_MIPMAP_LINEAR,
            Event.glTexParameteri .GL_TEXTURE_2D .GL_TEXTURE_MAG_FILTER .GL_LINEAR,
            Event.stbi_image_free ])
  | none =>
    (textureID,
     w ++ [ Event.cout ("Texture failed to load at path: " ++ path ++ "\n"),
            Event.stbi_image_free ])

/-- The attribute set-up of `renderQuad` (the `glEnableVertexAttribArray` /
`glVertexAttribPointer` calls issued while the quad's VAO is first configured). -/
def renderQuad_attributes : List Event :=
  [ Event.glEnableVertexAttribArray 0,
    Event.glVertexAttribPointer 0 3 .GL_FLOAT .GL_FALSE (14 * sizeof_float) 0,
    Event.glEnableVertexAttribArray 1,
    Event.glVertexAttribPointer 1 3 .GL_FLOAT .GL_FALSE (14 * sizeof_float) (3 * sizeof_float),
    Event.glEnableVertexAttribArray 2,
    Event.glVertexAttribPointer 2 2 .GL_FLOAT .GL_FALSE (14 * sizeof_float) (6 * sizeof_float),
    Event.glEnableVertexAttribArray 3,
    Event.glVertexAttribPointer 3 3 .GL_FLOAT .GL_FALSE (14 * sizeof_float) (8 * sizeof_float),
    Event.glEnableVertexAttribArray 4,
    Event.glVertexAttribPointer 4 3 .GL_FLOAT .GL_FALSE (14 * sizeof_float) (11 * sizeof_float) ]

/-- The vector operations of glm that `renderQuad` uses, in exact arithmetic. -/
def vec3.sub (a b : vec3) : vec3 := { x := a.x - b.x, y := a.y - b.y, z := a.z - b.z }

/-- The difference of two `glm::vec2`. -/
def vec2.sub (a b : vec2) : vec2 := { x := a.x - b.x, y := a.y - b.y }

/-- The function `glm::dot` on `vec3`. -/
def vec3.dot (a b : vec3) : ℚ := a.x * b.x + a.y * b.y + a.z * b.z

/-- The function `glm::cross`. -/
def vec3.cross (a b : vec3) : vec3 :=
  { x := a.y * b.z - b.y * a.z, y := a.z * b.x - b.z * a.x, z := a.x * b.y - b.x * a.y }

/-- The function `glm::inversesqrt` in exact arithmetic; `Rat.sqrt` is the exact square
root on squares of rationals, the only arguments that `renderQuad` produces. -/
def inversesqrt (x : ℚ) : ℚ := 1 / Rat.sqrt x

/-- The function `glm::normalize`: `v * inversesqrt(dot(v, v))`. -/
def vec3.normalize (v : vec3) : vec3 :=
  { x := v.x * inversesqrt (vec3.dot v v), y := v.y * inversesqrt (vec3.dot v v),
    z := v.z * inversesqrt (vec3.dot v v) }

/-- What `renderQuad` computes for one triangle before the vertex array is filled:
the UV determinant, `f`, and the tangent and bitangent before and after
`glm::normalize`. -/
structure TangentSpace where
  det : ℚ
  f : ℚ
  tangentRaw : vec3
  tangent : vec3
  bitangentRaw : vec3
  bitangent : vec3
  deriving DecidableEq, Repr

/-- The tangent/bitangent block that `renderQuad` writes out twice, once per triangle,
for the current values of `edge1`, `edge2`, `deltaUV1`, `deltaUV2`. -/
def renderQuad_tangentBlock (edge1 edge2 : vec3) (deltaUV1 deltaUV2 : vec2) : TangentSpace :=
  let det := deltaUV1.x * deltaUV2.y - deltaUV2.x * deltaUV1.y
  let f := 1 / det
  let tangent : vec3 :=
    { x := f * (deltaUV2.y * edge1.x - deltaUV1.y * edge2.x),
      y := f * (deltaUV2.y * edge1.y - deltaUV1.y * edge2.y),
      z := f * (deltaUV2.y * edge1.z - deltaUV1.y * edge2.z) }
  let bitangent : vec3 :=
    { x := f * (-deltaUV2.x * edge1.x + deltaUV1.x * edge2.x),
      y := f * (-deltaUV2.x * edge1.y + deltaUV1.x * edge2.y),
      z := f * (-deltaUV2.x * edge1.z + deltaUV1.x * edge2.z) }
  { det := det, f := f, tangentRaw := tangent, tangent := vec3.normalize tangent,
    bitangentRaw := bitangent, bitangent := vec3.normalize bitangent }

/-- The corner positions of `renderQuad`. -/
def renderQuad_pos1 : vec3 := { x := -1, y := 1, z := 0 }
/-- The second corner. -/
def renderQuad_pos2 : vec3 := { x := -1, y := -1, z := 0 }
/-- The third corner. -/
def renderQuad_pos3 : vec3 := { x := 1, y := -1, z := 0 }
/-- The fourth corner. -/
def renderQuad_pos4 : vec3 := { x := 1, y := 1, z := 0 }
/-- The texture coordinates of `renderQuad`. -/
def renderQuad_uv1 : vec2 := { x := 0, y := 1 }
/-- The second texture coordinate. -/
def renderQuad_uv2 : vec2 := { x := 0, y := 0 }
/-- The third texture coordinate. -/
def renderQuad_uv3 : vec2 := { x := 1, y := 0 }
/-- The fourth texture coordinate. -/
def renderQuad_uv4 : vec2 := { x := 1, y := 1 }
/-- The normal vector `nm` of `renderQuad`. -/
def renderQuad_nm : vec3 := { x := 0, y := 0, z := 1 }

/-- The first triangle of `renderQuad`: `edge1 = pos2 - pos1`, `edge2 = pos3 - pos1`,
`deltaUV1 = uv2 - uv1`, `deltaUV2 = uv3 - uv1`. -/
def renderQuad_triangle1 : TangentSpace :=
  let edge1 := vec3.sub renderQuad_pos2 renderQuad_pos1
  let edge2 := vec3.sub renderQuad_pos3 renderQuad_pos1
  let deltaUV1 := vec2.sub renderQuad_uv2 renderQuad_uv1
  let deltaUV2 := vec2.sub renderQuad_uv3 renderQuad_uv1
  renderQuad_tangentBlock edge1 edge2 deltaUV1 deltaUV2

/-- The second triangle of `renderQuad`: `edge1 = pos3 - pos1`, `edge2 = pos4 - pos1`,
`deltaUV1 = uv3 - uv1`, `deltaUV2 = uv4 - uv1`. -/
def renderQuad_triangle2 : TangentSpace :=
  let edge1 := vec3.sub renderQuad_pos3 renderQuad_pos1
  let edge2 := vec3.sub renderQuad_pos4 renderQuad_pos1
  let deltaUV1 := vec2.sub renderQuad_uv3 renderQuad_uv1
  let deltaUV2 := vec2.sub renderQuad_uv4 renderQuad_uv1
  renderQuad_tangentBlock edge1 edge2 deltaUV1 deltaUV2

/-- The number of halvings that take `n` to zero, by recursion on `fuel`. -/
def bitLength : Nat → Nat → Nat
  | 0, _ => 0
  | fuel + 1, n => if n = 0 then 0 else bitLength fuel (n / 2) + 1

/-- One step of the binary search of `floorLog2`: take `k` binary digits off when
there are that many. -/
def floorLog2Step (k : Nat) (s : Nat × Nat) : Nat × Nat :=
  if 2 ^ k ≤ s.1 then (s.1 / 2 ^ k, s.2 + k) else s

/-- The position of the leading binary digit of `n` (`0` for `n ≤ 1`): a binary search
below `2 ^ 2048`, digit by digit above. -/
def floorLog2 (n : Nat) : Nat :=
  if n < 2 ^ 2048 then
    (floorLog2Step 1 (floorLog2Step 2 (floorLog2Step 4 (floorLog2Step 8
      (floorLog2Step 16 (floorLog2Step 32 (floorLog2Step 64 (floorLog2Step 128
        (floorLog2Step 256 (floorLog2Step 512 (floorLog2Step 1024 (n, 0)))))))))))).2
  else bitLength n n - 1

/-- Rounding of the fraction `a / d` (`d > 0`) to the nearest natural number that has at
most `p` significant binary digits, ties going to the even significand: the rounding
of IEEE 754 arithmetic (round to nearest, ties to even) on magnitudes counted in units
of the least subnormal. -/
def roundSignificand (p : Nat) (a d : Nat) : Nat :=
  if a < 2 ^ p * d then
    let m := a / d
    let r := a % d
    if d < 2 * r ∨ (2 * r = d ∧ m % 2 = 1) then m + 1 else m
  else
    let k := floorLog2 a - floorLog2 d
    let fl := if 2 ^ k * d ≤ a then k else k - 1
    let e := fl - (p - 1)
    let u := d * 2 ^ e
    let m := a / u
    let r := a % u
    (if u < 2 * r ∨ (2 * r = u ∧ m % 2 = 1) then m + 1 else m) * 2 ^ e

/-- The function `roundSignificand` on signed fractions `num / den`. -/
def roundUnits (p : Nat) (num : Int) (den : Nat) : Int :=
  if 0 ≤ num then (roundSignificand p num.natAbs den : Int)
  else -(roundSignificand p num.natAbs den : Int)

/-- A finite value of the C++ type `float` (IEEE 754 binary32: 24 significant binary
digits, least subnormal `2 ^ (-149)`), given by its whole number of units of
`2 ^ (-149)`.  Results of magnitude `2 ^ 128` or more, which binary32 turns into an
infinity, do not arise from the values handled here and are not treated. -/
structure float where
  units : Int
  deriving DecidableEq, Repr

/-- The rational number that a `float` stands for. -/
def float.toRat (x : float) : ℚ := (x.units : ℚ) / 2 ^ 149

/-- The `float` sum `x + y`: the exact sum, rounded. -/
def float.add (x y : float) : float := ⟨roundUnits 24 (x.units + y.units) 1⟩

/-- The `float` difference `x - y`: the exact difference, rounded. -/
def float.sub (x y : float) : float := ⟨roundUnits 24 (x.units - y.units) 1⟩

/-- The value of a literal with suffix `f` whose decimal text denotes `n / d`. -/
def float.literal (n d : Nat) : float := ⟨roundUnits 24 ((n : Int) * 2 ^ 149) d⟩

/-- The value of a literal without suffix, denoting `n / d`, stored in a `float`: the
literal is a `double` (53 significant digits, least subnormal `2 ^ (-1074)`), which the
initialisation converts to `float`. -/
def float.ofDouble (n d : Nat) : float :=
  ⟨roundUnits 24 (roundUnits 53 ((n : Int) * 2 ^ 1074) d) (2 ^ 925)⟩

/-- The constant `0.0f`. -/
def float.zero : float := float.literal 0 1

/-- The constant `1.0f`. -/
def float.one : float := float.literal 1 1

/-- The comparison `x < y` of two `float` values. -/
def float.lt (x y : float) : Bool := decide (x.units < y.units)

/-- The keys that `processInput` polls with `glfwGetKey`. -/
inductive Key where
  | GLFW_KEY_ESCAPE | GLFW_KEY_W | GLFW_KEY_S | GLFW_KEY_A | GLFW_KEY_D
  | GLFW_KEY_Q | GLFW_KEY_E
  deriving DecidableEq, Repr

/-- The directions that `processInput` passes to `camera.ProcessKeyboard`. -/
inductive Camera_Movement where
  | FORWARD | BACKWARD | LEFT | RIGHT
  deriving DecidableEq, Repr

/-- The globals that `processInput` touches: `heightScale`, the close flag of the
window, and the camera, of which only the `ProcessKeyboard` calls made on it are
kept (its class is declared outside the files at hand). -/
structure App where
  heightScale : float
  windowShouldClose : Bool
  cameraCalls : List (Camera_Movement × float)
  deriving DecidableEq, Repr

/-- The function `processInput(window)`; `pressed k` says whether
`glfwGetKey(window, k) == GLFW_PRESS`, and `deltaTime` is the global of that name. -/
def processInput (pressed : Key → Bool) (deltaTime : float) (app : App) : App :=
  let app := if pressed .GLFW_KEY_ESCAPE then { app with windowShouldClose := true } else app
  let app := if pressed .GLFW_KEY_W then
    { app with cameraCalls := app.cameraCalls ++ [(.FORWARD, deltaTime)] } else app
  let app := if pressed .GLFW_KEY_S then
    { app with cameraCalls := app.cameraCalls ++ [(.BACKWARD, deltaTime)] } else app
  let app := if pressed .GLFW_KEY_A then
    { app with cameraCalls := app.cameraCalls ++ [(.LEFT, deltaTime)] } else app
  let app := if pressed .GLFW_KEY_D then
    { app with cameraCalls := app.cameraCalls ++ [(.RIGHT, deltaTime)] } else app
  if pressed .GLFW_KEY_Q then
    if float.lt float.zero app.heightScale then
      { app with heightScale := float.sub app.heightScale (float.literal 5 10000) }
    else { app with heightScale := float.zero }
  else if pressed .GLFW_KEY_E then
    if float.lt app.heightScale float.one then
      { app with heightScale := float.add app.heightScale (float.literal 5 10000) }
    else { app with heightScale := float.one }
  else app

/-- The globals as `main` finds them: `float heightScale = 0.1;`. -/
def App.initial : App :=
  { heightScale := float.ofDouble 1 10, windowShouldClose := false, cameraCalls := [] }

/-! ## Shader.h -/

/-- The `try`/`catch` block of the `Shader` constructor: opens the vertex file, then the
fragment file, moves both into string streams, assigns `vertexCode` and `fragmentCode`,
and then handles the geometry file when a path was given.  A failing `open` throws and
jumps to the `catch`, which writes one line; whether a transfer into a string stream
succeeded is never looked at.  Returns `(vertexCode, fragmentCode, geometryCode)`. -/
def Shader.readSources (env : Env) (vertexPath fragmentPath : String)
    (geometryPath : Option String) (w : World) : (String × String × String) × World :=
  let w := w ++ [Event.ifstream_open vertexPath]
  match env.ifstream vertexPath with
  | .openFails =>
    (("", "", ""), w ++ [Event.cout "ERROR::SHADER::FILE_NOT_SUCCESFULLY_READ\n"])
  | .opened vText _ =>
    let w := w ++ [Event.ifstream_open fragmentPath]
    match env.ifstream fragmentPath with
    | .openFails =>
      (("", "", ""), w ++ [Event.cout "ERROR::SHADER::FILE_NOT_SUCCESFULLY_READ\n"])
    | .opened fText _ =>
      match geometryPath with
      | none => ((vText, fText, ""), w)
      | some gPath =>
        let w := w ++ [Event.ifstream_open gPath]
        match env.ifstream gPath with
        | .openFails =>
          ((vText, fText, ""), w ++ [Event.cout "ERROR::SHADER::FILE_NOT_SUCCESFULLY_READ\n"])
        | .opened gText _ => ((vText, fText, gText), w)

/-- The method `Shader::checkCompileErrors(shader, type)`. -/
def Shader.checkCompileErrors (env : Env) (shader : Nat) (type : String) (w : World) :
    World :=
  if type ≠ "PROGRAM" then
    let success := env.glGetShaderiv w shader
    let w := w ++ [Event.glGetShaderiv shader .GL_COMPILE_STATUS success]
    if success = 0 then
      let infoLog := env.glGetShaderInfoLog w shader
      w ++ [ Event.glGetShaderInfoLog shader infoLog,
             Event.cout ("ERROR::SHADER_COMPILATION_ERROR of type: " ++ type ++ "\n" ++ infoLog
               ++ "\n -- --------------------------------------------------- -- " ++ "\n") ]
    else w
  else
    let success := env.glGetProgramiv w shader
    let w := w ++ [Event.glGetProgramiv shader .GL_LINK_STATUS success]
    if success = 0 then
      let infoLog := env.glGetProgramInfoLog w shader
      w ++ [ Event.glGetProgramInfoLog shader infoLog,
             Event.cout ("ERROR::PROGRAM_LINKING_ERROR of type: " ++ type ++ "\n" ++ infoLog
               ++ "\n -- --------------------------------------------------- -- " ++ "\n") ]
    else w

/-- The geometry stage of the `Shader` constructor, run only when a geometry path was
given; returns the shader object `geometry`, `none` when the variable stays
unassigned. -/
def Shader.compileGeometry (env : Env) (geometryPath : Option String)
    (geometryCode : String) (w : World) : Option Nat × World :=
  match geometryPath with
  | none => (none, w)
  | some _ =>
    let geometry := env.glCreateShader w .GL_GEOMETRY_SHADER
    let w := w ++ [ Event.glCreateShader .GL_GEOMETRY_SHADER geometry,
                    Event.glShaderSource geometry geometryCode,
                    Event.glCompileShader geometry ]
    (some geometry, Shader.checkCompileErrors env geometry "GEOMETRY" w)

/-- The constructor `Shader(vertexPath, fragmentPath, geometryPath)`; a null
`geometryPath` is `none`. -/
def Shader.new (env : Env) (vertexPath fragmentPath : String) (geometryPath : Option String)
    (w : World) : Shader × World :=
  let src := Shader.readSources env vertexPath fragmentPath geometryPath w
  let vCode := src.1.1
  let fCode := src.1.2.1
  let geometryCode := src.1.2.2
  let w := src.2
  let vertex := env.glCreateShader w .GL_VERTEX_SHADER
  let w := w ++ [ Event.glCreateShader .GL_VERTEX_SHADER vertex,
                  Event.glShaderSource vertex vCode,
                  Event.glCompileShader vertex ]
  let w := Shader.checkCompileErrors env vertex "VERTEX" w
  let fragment := env.glCreateShader w .GL_FRAGMENT_SHADER
  let w := w ++ [ Event.glCreateShader .GL_FRAGMENT_SHADER fragment,
                  Event.glShaderSource fragment fCode,
                  Event.glCompileShader fragment ]
  let w := Shader.checkCompileErrors env fragment "FRAGMENT" w
  let g := Shader.compileGeometry env geometryPath geometryCode w
  let w := g.2
  let ID := env.glCreateProgram w
  let w := w ++ [ Event.glCreateProgram ID,
                  Event.glAttachShader ID vertex,
                  Event.glAttachShader ID fragment ]
  let w := match g.1 with
    | some geometry => w ++ [Event.glAttachShader ID geometry]
    | none => w
  let w := w ++ [Event.glLinkProgram ID]
  let w := Shader.checkCompileErrors env ID "PROGRAM" w
  let w := w ++ [Event.glDeleteShader vertex, Event.glDeleteShader fragment]
  let w := match g.1 with
    | some geometry => w ++ [Event.glDeleteShader geometry]
    | none => w
  ({ ID := ID }, w)

/-! ## Definitions used to state the properties -/

/-- The paths with which `TextureFromFile` was entered, in call order. -/
def TextureFromFile_calls (w : World) : List String :=
  w.filterMap (fun e => match e with
    | Event.call_TextureFromFile path _ => some path
    | _ => none)

/-- A sequence of `loadMaterialTextures` calls on one model, in order. -/
def Model.loadMaterialTextures_seq (env : Env) :
    List (aiMaterial × aiTextureType × String) → Model → World → Model × World
  | [], self, w => (self, w)
  | call :: rest, self, w =>
    let r := Model.loadMaterialTextures env call.1 call.2.1 call.2.2 self w
    Model.loadMaterialTextures_seq env rest r.2.1 r.2.2

/-- The cache invariant relative to the trace `w0` at which the model was fresh:
the trace only grew, and the `TextureFromFile` calls made since are exactly the
cached paths, which are pairwise distinct. -/
def CacheInv (w0 : World) (self : Model) (w : World) : Prop :=
  ∃ d, w = w0 ++ d ∧
    TextureFromFile_calls d = self.textures_loaded.map (fun t => t.path) ∧
    (self.textures_loaded.map (fun t => t.path)).Nodup

/-- Any number of iterations of the loop body of `loadMaterialTextures`, possibly from
several calls: each step is a pair `(typeName, str)`. -/
def Model.loadMaterialTextures_steps (env : Env) (steps : List (String × String))
    (s : List Texture × Model × World) : List Texture × Model × World :=
  steps.foldl (fun s c => Model.loadMaterialTextures_body env c.1 s c.2) s

/-- The arrays that `processMesh` indexes have `mNumVertices` entries (texture
coordinate set 0 only when it is present), and the material index is inside the scene's
material array. -/
def aiMesh.wellFormed (scene : aiScene) (mesh : aiMesh) : Prop :=
  mesh.mVertices.length = mesh.mNumVertices ∧
  mesh.mNormals.length = mesh.mNumVertices ∧
  mesh.mTangents.length = mesh.mNumVertices ∧
  mesh.mBitangents.length = mesh.mNumVertices ∧
  (∀ coords, mesh.mTextureCoords0 = some coords → coords.length = mesh.mNumVertices) ∧
  mesh.mMaterialIndex < scene.mMaterials.length

/-- Every mesh index in `refs` is inside the scene's mesh array and denotes a
well-formed mesh. -/
def aiScene.refsWellFormed (scene : aiScene) (refs : List Nat) : Prop :=
  ∀ k ∈ refs, ∃ mesh, scene.mMeshes[k]? = some mesh ∧ aiMesh.wellFormed scene mesh

mutual
/-- The pre-order, depth-first listing of the mesh references of a node tree: the
node's own references in stored order, then the listings of its children in child
order. -/
def aiNode.preorder : aiNode → List Nat
  | .mk mMeshes mChildren => mMeshes ++ aiNode.preorderChildren mChildren
/-- The pre-order listings of a list of sibling nodes, concatenated. -/
def aiNode.preorderChildren : List aiNode → List Nat
  | [] => []
  | child :: rest => aiNode.preorder child ++ aiNode.preorderChildren rest
end

mutual
/-- The sum of `mNumMeshes` over all nodes of a tree. -/
def aiNode.sumNumMeshes : aiNode → Nat
  | .mk mMeshes mChildren => mMeshes.length + aiNode.sumNumMeshesChildren mChildren
/-- The sum of `mNumMeshes` over all nodes of a list of trees. -/
def aiNode.sumNumMeshesChildren : List aiNode → Nat
  | [] => 0
  | child :: rest => aiNode.sumNumMeshes child + aiNode.sumNumMeshesChildren rest
end

/-- The CPU-side content of a `Mesh` built from the raw mesh at index `k` of the
scene: its vertices are the result of the vertex loop and its indices the result of
the face loop. -/
def Mesh.isImageOf (scene : aiScene) (k : Nat) (m : Mesh) : Prop :=
  ∃ mesh, scene.mMeshes[k]? = some mesh ∧
    Model.processMesh_vertices mesh mesh.mNumVertices 0 = some m.vertices ∧
    m.indices = Model.processMesh_indices mesh.mFaces

/-- An example raw mesh with two vertices, texture coordinates and one face. -/
def exampleMesh0 : aiMesh :=
  { mNumVertices := 2,
    mVertices := [⟨0, 0, 0⟩, ⟨1, 0, 0⟩],
    mNormals := [⟨0, 0, 1⟩, ⟨0, 0, 1⟩],
    mTextureCoords0 := some [⟨0, 1, 0⟩, ⟨1, 1, 0⟩],
    mTangents := [⟨1, 0, 0⟩, ⟨1, 0, 0⟩],
    mBitangents := [⟨0, 1, 0⟩, ⟨0, 1, 0⟩],
    mFaces := [⟨[0, 1, 0]⟩],
    mMaterialIndex := 0 }

/-- An example raw mesh with one vertex and no texture coordinates. -/
def exampleMesh1 : aiMesh :=
  { mNumVertices := 1,
    mVertices := [⟨2, 3, 5⟩],
    mNormals := [⟨0, 1, 0⟩],
    mTextureCoords0 := none,
    mTangents := [⟨1, 0, 0⟩],
    mBitangents := [⟨0, 0, 1⟩],
    mFaces := [⟨[0, 0, 0]⟩, ⟨[0]⟩],
    mMaterialIndex := 0 }

/-- An example material: one diffuse and one specular texture. -/
def exampleMaterial : aiMaterial :=
  { GetTextures := fun type =>
      match type with
      | .aiTextureType_DIFFUSE => ["rgb.png"]
      | .aiTextureType_SPECULAR => ["grey.png"]
      | _ => [] }

/-- An example node tree: the root holds mesh 0; its first child holds meshes 1 and 0;
its second child holds nothing and has one child holding mesh 1. -/
def exampleNode : aiNode :=
  .mk [0] [.mk [1, 0] [], .mk [] [.mk [1] []]]

/-- An example scene around `exampleNode`. -/
def exampleScene : aiScene :=
  { mFlags := 0, mRootNode := some exampleNode,
    mMeshes := [exampleMesh0, exampleMesh1], mMaterials := [exampleMaterial] }

/-- A concrete outside world for the examples: the `k`-th generated name is `100 + k`
where `k` is the length of the trace, and only `"res/rgb.png"`, `"res/grey.png"`,
`"res/rgba.png"` and `"res/two.png"` decode; the importer reads `"res/model.obj"` as
`exampleScene` and fails on every other path; the shader files are
`"shaders/vert.vs"`, `"shaders/frag.fs"` and `"shaders/unreadable.vs"`, which opens
but cannot be read; every shader compiles except the one named `406`. -/
def exampleEnv : Env where
  glGenTextures := fun w => 100 + w.length
  glGenVertexArrays := fun w => 200 + w.length
  glGenBuffers := fun w => 300 + w.length
  glGetUniformLocation := fun _ name => name.length
  stbi_load := fun filename =>
    if filename = "res/rgb.png" then some { width := 4, height := 2, nrComponents := 3 }
    else if filename = "res/grey.png" then some { width := 1, height := 1, nrComponents := 1 }
    else if filename = "res/rgba.png" then some { width := 8, height := 8, nrComponents := 4 }
    else if filename = "res/two.png" then some { width := 2, height := 2, nrComponents := 2 }
    else none
  ReadFile := fun path =>
    if path = "res/model.obj" then { scene := some exampleScene, GetErrorString := "" }
    else { scene := none, GetErrorString := "Unable to open file" }
  ifstream := fun path =>
    if path = "shaders/vert.vs" then .opened "vertex source" true
    else if path = "shaders/frag.fs" then .opened "fragment source" true
    else if path = "shaders/unreadable.vs" then .opened "" false
    else .openFails
  glCreateShader := fun w _ => 400 + w.length
  glCreateProgram := fun w => 500 + w.length
  glGetShaderiv := fun _ shader => if shader = 406 then 0 else 1
  glGetProgramiv := fun _ _ => 1
  glGetShaderInfoLog := fun _ _ => "syntax error"
  glGetProgramInfoLog := fun _ _ => "link error"

/-- A fresh model with directory `res`. -/
def exampleModel : Model :=
  { textures_loaded := [], meshes := [], directory := "res", gammaCorrection := false }

/-- An example material with one texture in Assimp's normals slot and one in its height
slot. -/
def exampleBumpMaterial : aiMaterial :=
  { GetTextures := fun type =>
      match type with
      | .aiTextureType_NORMALS => ["n.png"]
      | .aiTextureType_HEIGHT => ["h.png"]
      | _ => [] }

/-- The decimal numeral of a natural number. -/
def decimal (k : Nat) : String := (Nat.toDigits 10 k).asString

/-- The four texture types that `Mesh::Draw` numbers. -/
def Texture.recognised (type : String) : Prop :=
  type = "texture_diffuse" ∨ type = "texture_specular" ∨ type = "texture_normal" ∨
    type = "texture_height"

/-- The counters of `Mesh::Draw` after its loop has gone through the textures `ts`,
starting from the counters `c`. -/
def Mesh.Draw_counters (ts : List Texture) (c : DrawCounters) : DrawCounters :=
  ts.foldl (fun c t => (Mesh.Draw_number t.type c).2) c

/-- The initial counters of `Mesh::Draw` (all four are `1`). -/
def Mesh.Draw_init : DrawCounters :=
  { diffuseNr := 1, specularNr := 1, normalNr := 1, heightNr := 1 }

/-- The uniform name that the loop of `Mesh::Draw` builds for the texture `t` at
position `i` of `ts`: its type followed by the text that the `if` chain assigns to
`number` when the counters are as the first `i` textures left them. -/
def Mesh.Draw_name (ts : List Texture) (i : Nat) (t : Texture) : String :=
  t.type ++ (Mesh.Draw_number t.type (Mesh.Draw_counters (ts.take i) Mesh.Draw_init)).1

/-- An example texture list: two diffuse maps, a specular map, a map of a type that
`Draw` does not number, and a third diffuse map. -/
def exampleTextures : List Texture :=
  [ { id := 11, type := "texture_diffuse", path := "a.png" },
    { id := 12, type := "texture_diffuse", path := "b.png" },
    { id := 13, type := "texture_specular", path := "c.png" },
    { id := 14, type := "texture_emissive", path := "d.png" },
    { id := 15, type := "texture_diffuse", path := "e.png" } ]

/-- The attribute slots enabled in a trace, in call order. -/
def enabledAttribs (w : World) : List Nat :=
  w.filterMap (fun e => match e with
    | Event.glEnableVertexAttribArray index => some index
    | _ => none)

/-- The attribute layouts configured in a trace, in call order: slot, number of
components, stride in bytes, offset in bytes. -/
def attribPointers (w : World) : List (Nat × Nat × Nat × Nat) :=
  w.filterMap (fun e => match e with
    | Event.glVertexAttribPointer index size _ _ stride pointer =>
      some (index, size, stride, pointer)
    | _ => none)

/-- Whether a call configures a vertex attribute. -/
def isAttribCall : Event → Bool
  | Event.glEnableVertexAttribArray _ => true
  | Event.glVertexAttribPointer _ _ _ _ _ _ => true
  | _ => false

/-- The running sums of a list, starting at `acc`: where each block starts when blocks
of the given sizes are laid out one after the other. -/
def startOffsets : List Nat → Nat → List Nat
  | [], _ => []
  | size :: rest, acc => acc :: startOffsets rest (acc + size)

/-- The GPU format that the specification assigns to a channel count: one channel is
single-channel (`GL_RED`), three are RGB, four are RGBA, and no other count has a
format. -/
def formatOfChannels (nrComponents : Int) : Option GLenum :=
  [((1 : Int), GLenum.GL_RED), (3, GLenum.GL_RGB), (4, GLenum.GL_RGBA)].lookup nrComponents

/-- A finite sequence of `processInput` calls, each with its own key states and
`deltaTime`. -/
def App.run (inputs : List ((Key → Bool) × float)) (app : App) : App :=
  inputs.foldl (fun a i => processInput i.1 i.2 a) app

/-- An example material that names `rgb.png` both as a diffuse and as a specular
texture. -/
def exampleSharedMaterial : aiMaterial :=
  { GetTextures := fun type =>
      match type with
      | .aiTextureType_DIFFUSE => ["rgb.png"]
      | .aiTextureType_SPECULAR => ["rgb.png"]
      | _ => [] }

/-- The file names passed to `stbi_load` in a trace, in call order. -/
def stbi_load_calls (w : World) : List String :=
  w.filterMap (fun e => match e with
    | Event.stbi_load filename => some filename
    | _ => none)

/-- Whether a call writes a diagnostic to standard output. -/
def isDiagnostic : Event → Bool
  | Event.cout _ => true
  | _ => false

/-- Whether a call is one of the GPU operations of shader construction: creating,
sourcing, compiling or deleting a stage, creating a program, attaching, linking.  The
status and info-log queries and the diagnostics are not. -/
def isShaderOperation : Event → Bool
  | Event.glCreateShader _ _ => true
  | Event.glShaderSource _ _ => true
  | Event.glCompileShader _ => true
  | Event.glCreateProgram _ => true
  | Event.glAttachShader _ _ => true
  | Event.glLinkProgram _ => true
  | Event.glDeleteShader _ => true
  | _ => false

/-- The compile-status and link-status values returned in a trace, in call order. -/
def statusResults (w : World) : List Int :=
  w.filterMap (fun e => match e with
    | Event.glGetShaderiv _ _ params => some params
    | Event.glGetProgramiv _ _ params => some params
    | _ => none)

/-- The sequence of GPU operations that the specification gives for constructing a
shader from the stage objects `vertex`, `fragment`, the optional `geometry`, and the
program `ID`: create, source and compile the vertex stage, then the fragment stage,
then the geometry stage if there is one; create the program; attach every stage; link;
delete every stage. -/
def Shader.operations (vertex fragment ID : Nat) (geometry : Option Nat)
    (vCode fCode geometryCode : String) : List Event :=
  [ Event.glCreateShader .GL_VERTEX_SHADER vertex,
    Event.glShaderSource vertex vCode,
    Event.glCompileShader vertex,
    Event.glCreateShader .GL_FRAGMENT_SHADER fragment,
    Event.glShaderSource fragment fCode,
    Event.glCompileShader fragment ]
  ++ (match geometry with
      | some g => [ Event.glCreateShader .GL_GEOMETRY_SHADER g,
                    Event.glShaderSource g geometryCode,
                    Event.glCompileShader g ]
      | none => [])
  ++ [ Event.glCreateProgram ID,
       Event.glAttachShader ID vertex,
       Event.glAttachShader ID fragment ]
  ++ (match geometry with
      | some g => [Event.glAttachShader ID g]
      | none => [])
  ++ [ Event.glLinkProgram ID,
       Event.glDeleteShader vertex,
       Event.glDeleteShader fragment ]
  ++ (match geometry with
      | some g => [Event.glDeleteShader g]
      | none => [])

/-- The key states in which exactly the key `k` is pressed. -/
def onlyKey (k : Key) : Key → Bool := fun key => decide (key = k)

/-- The line written for a stage of type `type` that did not compile. -/
def Shader.compileDiagnostic (type infoLog : String) : Event :=
  Event.cout ("ERROR::SHADER_COMPILATION_ERROR of type: " ++ type ++ "\n" ++ infoLog
    ++ "\n -- --------------------------------------------------- -- " ++ "\n")

/-- The line written for a program that did not link. -/
def Shader.linkDiagnostic (type infoLog : String) : Event :=
  Event.cout ("ERROR::PROGRAM_LINKING_ERROR of type: " ++ type ++ "\n" ++ infoLog
    ++ "\n -- --------------------------------------------------- -- " ++ "\n")

/-- The diagnostics expected for the stage `shader` when its compile status is queried
in the trace `w`: one line, carrying the info log, if the status that OpenGL returns is
zero, and none otherwise. -/
def Shader.compileFailure (env : Env) (shader : Nat) (type : String) (w : World) :
    List Event :=
  if env.glGetShaderiv w shader = 0 then
    [Shader.compileDiagnostic type
      (env.glGetShaderInfoLog
        (w ++ [Event.glGetShaderiv shader .GL_COMPILE_STATUS (env.glGetShaderiv w shader)])
        shader)]
  else []

/-- The diagnostics expected for the program `program` when its link status is queried
in the trace `w`: one line if the status returned is zero, none otherwise. -/
def Shader.linkFailure (env : Env) (program : Nat) (type : String) (w : World) :
    List Event :=
  if env.glGetProgramiv w program = 0 then
    [Shader.linkDiagnostic type
      (env.glGetProgramInfoLog
        (w ++ [Event.glGetProgramiv program .GL_LINK_STATUS (env.glGetProgramiv w program)])
        program)]
  else []

/-- The calls expected of a compile check on `shader` in the trace `w`: the status
query, and on a zero status the info-log query and the diagnostic. -/
def Shader.compileCheck (env : Env) (shader : Nat) (type : String) (w : World) :
    List Event :=
  Event.glGetShaderiv shader .GL_COMPILE_STATUS (env.glGetShaderiv w shader) ::
    (if env.glGetShaderiv w shader = 0 then
      Event.glGetShaderInfoLog shader
        (env.glGetShaderInfoLog
          (w ++ [Event.glGetShaderiv shader .GL_COMPILE_STATUS (env.glGetShaderiv w shader)])
          shader) :: Shader.compileFailure env shader type w
    else [])

/-- The calls expected of a link check on `program` in the trace `w`: the status query,
and on a zero status the info-log query and the diagnostic. -/
def Shader.linkCheck (env : Env) (program : Nat) (type : String) (w : World) :
    List Event :=
  Event.glGetProgramiv program .GL_LINK_STATUS (env.glGetProgramiv w program) ::
    (if env.glGetProgramiv w program = 0 then
      Event.glGetProgramInfoLog program
        (env.glGetProgramInfoLog
          (w ++ [Event.glGetProgramiv program .GL_LINK_STATUS (env.glGetProgramiv w program)])
          program) :: Shader.linkFailure env program type w
    else [])

/-! ## Properties -/

theorem strcmp_eq_zero_iff (a b : String) : strcmp a b = 0 ↔ a = b := by
  unfold strcmp
  by_cases h : a = b
  · simp [h]
  · simp only [h, if_false, iff_false]
    split <;> decide

theorem find_eq_none_iff (str : String) (l : List Texture) :
    Model.loadMaterialTextures_find str l = none ↔ ∀ t ∈ l, t.path ≠ str := by
  induction l with
  | nil => simp [Model.loadMaterialTextures_find]
  | cons t rest ih =>
    simp only [Model.loadMaterialTextures_find, strcmp_eq_zero_iff, List.mem_cons,
      forall_eq_or_imp]
    by_cases h : t.path = str
    · simp [h]
    · simp [h, ih]

theorem find_eq_some (str : String) (l : List Texture) (t : Texture)
    (h : Model.loadMaterialTextures_find str l = some t) : t ∈ l ∧ t.path = str := by
  induction l with
  | nil => simp [Model.loadMaterialTextures_find] at h
  | cons u rest ih =>
    simp only [Model.loadMaterialTextures_find, strcmp_eq_zero_iff] at h
    by_cases hu : u.path = str
    · simp only [hu, if_true, Option.some.injEq] at h
      subst h
      exact ⟨List.mem_cons_self _ _, hu⟩
    · simp only [hu, if_false] at h
      exact ⟨List.mem_cons_of_mem _ (ih h).1, (ih h).2⟩

theorem find_of_nodup (str : String) (l : List Texture) (e : Texture)
    (hnd : (l.map (fun t => t.path)).Nodup) (he : e ∈ l) (hp : e.path = str) :
    Model.loadMaterialTextures_find str l = some e := by
  induction l with
  | nil => simp at he
  | cons u rest ih =>
    simp only [List.map_cons, List.nodup_cons, List.mem_map, not_exists, not_and] at hnd
    simp only [Model.loadMaterialTextures_find, strcmp_eq_zero_iff]
    rcases List.mem_cons.mp he with rfl | hmem
    · simp [hp]
    · have hne : u.path ≠ str := by
        intro hu
        exact hnd.1 e hmem (by rw [hp, hu])
      simp only [hne, if_false]
      exact ih hnd.2 hmem

theorem TextureFromFile_trace (env : Env) (path directory : String) (w : World) :
    ∃ d, (TextureFromFile env path directory w).2 = w ++ d ∧
      TextureFromFile_calls d = [path] := by
  simp only [TextureFromFile]
  split
  · simp only [List.append_assoc]
    exact ⟨_, rfl, by simp [TextureFromFile_calls, List.filterMap]⟩
  · simp only [List.append_assoc]
    exact ⟨_, rfl, by simp [TextureFromFile_calls, List.filterMap]⟩

theorem TextureFromFile_calls_append (a b : World) :
    TextureFromFile_calls (a ++ b) = TextureFromFile_calls a ++ TextureFromFile_calls b := by
  simp [TextureFromFile_calls]

theorem CacheInv_body (env : Env) (w0 : World) (typeName str : String)
    (s : List Texture × Model × World) (h : CacheInv w0 s.2.1 s.2.2) :
    CacheInv w0 (Model.loadMaterialTextures_body env typeName s str).2.1
      (Model.loadMaterialTextures_body env typeName s str).2.2 := by
  unfold Model.loadMaterialTextures_body
  cases hf : Model.loadMaterialTextures_find str s.2.1.textures_loaded with
  | some t => exact h
  | none =>
    obtain ⟨d, hw, hc, hnd⟩ := h
    obtain ⟨d2, hw2, hc2⟩ := TextureFromFile_trace env str s.2.1.directory s.2.2
    refine ⟨d ++ d2, ?_, ?_, ?_⟩
    · show (TextureFromFile env str s.2.1.directory s.2.2).2 = w0 ++ (d ++ d2)
      rw [hw2, hw, List.append_assoc]
    · simp only [TextureFromFile_calls_append, hc, hc2, List.map_append, List.map_cons,
        List.map_nil]
    · simp only [List.map_append, List.map_cons, List.map_nil]
      rw [List.nodup_append]
      refine ⟨hnd, List.nodup_singleton _, ?_⟩
      intro p hmem hp
      rw [List.mem_singleton] at hp
      rw [hp] at hmem
      obtain ⟨t, ht, htp⟩ := List.mem_map.mp hmem
      exact (find_eq_none_iff str _).mp hf t ht htp

theorem CacheInv_foldl (env : Env) (w0 : World) (typeName : String) (strs : List String)
    (s : List Texture × Model × World) (h : CacheInv w0 s.2.1 s.2.2) :
    CacheInv w0 (strs.foldl (Model.loadMaterialTextures_body env typeName) s).2.1
      (strs.foldl (Model.loadMaterialTextures_body env typeName) s).2.2 := by
  induction strs generalizing s with
  | nil => exact h
  | cons str rest ih => exact ih _ (CacheInv_body env w0 typeName str s h)

theorem CacheInv_loadMaterialTextures (env : Env) (w0 : World) (mat : aiMaterial)
    (type : aiTextureType) (typeName : String) (self : Model) (w : World)
    (h : CacheInv w0 self w) :
    CacheInv w0 (Model.loadMaterialTextures env mat type typeName self w).2.1
      (Model.loadMaterialTextures env mat type typeName self w).2.2 :=
  CacheInv_foldl env w0 typeName _ ([], self, w) h

theorem CacheInv_seq (env : Env) (w0 : World)
    (calls : List (aiMaterial × aiTextureType × String)) (self : Model) (w : World)
    (h : CacheInv w0 self w) :
    CacheInv w0 (Model.loadMaterialTextures_seq env calls self w).1
      (Model.loadMaterialTextures_seq env calls self w).2 := by
  induction calls generalizing self w with
  | nil => exact h
  | cons c rest ih =>
    exact ih _ _ (CacheInv_loadMaterialTextures env w0 c.1 c.2.1 c.2.2 self w h)

/-- C1. Texture-cache invariant: starting from a model whose `textures_loaded` is
empty, after any sequence of `loadMaterialTextures` calls the cached paths are pairwise
distinct, and among the calls made since the start `TextureFromFile` was entered at
most once for every path. -/
theorem C1_texture_cache_invariant (env : Env)
    (calls : List (aiMaterial × aiTextureType × String))
    (meshes : List Mesh) (directory : String) (gamma : Bool) (w0 : World) :
    ((Model.loadMaterialTextures_seq env calls
        { textures_loaded := [], meshes := meshes, directory := directory,
          gammaCorrection := gamma } w0).1.textures_loaded.map (fun t => t.path)).Nodup ∧
    ∃ d, (Model.loadMaterialTextures_seq env calls
        { textures_loaded := [], meshes := meshes, directory := directory,
          gammaCorrection := gamma } w0).2 = w0 ++ d ∧
      ∀ p, (TextureFromFile_calls d).count p ≤ 1 := by
  have h := CacheInv_seq env w0 calls
    { textures_loaded := [], meshes := meshes, directory := directory,
      gammaCorrection := gamma } w0 ⟨[], by simp, by simp [TextureFromFile_calls], by simp⟩
  obtain ⟨d, hw, hc, hnd⟩ := h
  refine ⟨hnd, d, hw, fun p => ?_⟩
  rw [hc]
  exact List.nodup_iff_count_le_one.mp hnd p
theorem CacheInv_steps (env : Env) (w0 : World) (steps : List (String × String))
    (s : List Texture × Model × World) (h : CacheInv w0 s.2.1 s.2.2) :
    CacheInv w0 (Model.loadMaterialTextures_steps env steps s).2.1
      (Model.loadMaterialTextures_steps env steps s).2.2 := by
  unfold Model.loadMaterialTextures_steps
  induction steps generalizing s with
  | nil => exact h
  | cons c rest ih => exact ih _ (CacheInv_body env w0 c.1 c.2 s h)

theorem processMesh_vertices_some (mesh : aiMesh) (k i : Nat)
    (h : ∀ j, j < k → ∃ v, Model.processMesh_vertex mesh (i + j) = some v) :
    ∃ vs, Model.processMesh_vertices mesh k i = some vs ∧ vs.length = k ∧
      ∀ j, j < k → vs[j]? = Model.processMesh_vertex mesh (i + j) := by
  induction k generalizing i with
  | zero => exact ⟨[], rfl, rfl, fun j hj => absurd hj (Nat.not_lt_zero j)⟩
  | succ k ih =>
    obtain ⟨v, hv⟩ := h 0 (Nat.succ_pos k)
    obtain ⟨vs, hvs, hlen, hget⟩ := ih (i + 1) (fun j hj => by
      have := h (j + 1) (Nat.succ_lt_succ hj)
      rwa [show i + (j + 1) = i + 1 + j by omega] at this)
    refine ⟨v :: vs, ?_, by simp [hlen], ?_⟩
    · simp only [Nat.add_zero] at hv
      simp [Model.processMesh_vertices, hv, hvs]
    · intro j hj
      cases j with
      | zero => simpa using hv.symm
      | succ j =>
        have := hget j (Nat.lt_of_succ_lt_succ hj)
        rw [show i + 1 + j = i + (j + 1) by omega] at this
        simpa using this

theorem processMesh_vertex_some (mesh : aiMesh) (i : Nat)
    (hp : i < mesh.mVertices.length) (hn : i < mesh.mNormals.length)
    (ht : i < mesh.mTangents.length) (hb : i < mesh.mBitangents.length)
    (hc : ∀ coords, mesh.mTextureCoords0 = some coords → i < coords.length) :
    ∃ v, Model.processMesh_vertex mesh i = some v := by
  unfold Model.processMesh_vertex
  rw [List.getElem?_eq_getElem hp, List.getElem?_eq_getElem hn,
    List.getElem?_eq_getElem ht, List.getElem?_eq_getElem hb]
  unfold Model.processMesh_texCoords
  cases htc : mesh.mTextureCoords0 with
  | none => exact ⟨_, rfl⟩
  | some coords =>
    simp only [List.getElem?_eq_getElem (hc coords htc)]
    exact ⟨_, rfl⟩

theorem processMesh_vertex_spec (mesh : aiMesh) (i : Nat) (v : Vertex)
    (h : Model.processMesh_vertex mesh i = some v) :
    (∃ p, mesh.mVertices[i]? = some p ∧ v.Position = { x := p.x, y := p.y, z := p.z }) ∧
    (∃ n, mesh.mNormals[i]? = some n ∧ v.Normal = { x := n.x, y := n.y, z := n.z }) ∧
    (∃ t, mesh.mTangents[i]? = some t ∧ v.Tangent = { x := t.x, y := t.y, z := t.z }) ∧
    (∃ b, mesh.mBitangents[i]? = some b ∧ v.Bitangent = { x := b.x, y := b.y, z := b.z }) ∧
    (∀ coords, mesh.mTextureCoords0 = some coords →
      ∃ c, coords[i]? = some c ∧ v.TexCoords = { x := c.x, y := c.y }) ∧
    (mesh.mTextureCoords0 = none → v.TexCoords = { x := 0, y := 0 }) := by
  unfold Model.processMesh_vertex Model.processMesh_texCoords at h
  cases hp : mesh.mVertices[i]? with
  | none => simp [hp] at h
  | some p =>
  cases hn : mesh.mNormals[i]? with
  | none => simp [hp, hn] at h
  | some n =>
  cases ht : mesh.mTangents[i]? with
  | none => cases htc : mesh.mTextureCoords0 <;> simp [hp, hn, ht, htc] at h
  | some t =>
  cases hb : mesh.mBitangents[i]? with
  | none => cases htc : mesh.mTextureCoords0 <;> simp [hp, hn, ht, hb, htc] at h
  | some b =>
  cases htc : mesh.mTextureCoords0 with
  | none =>
    simp [hp, hn, ht, hb, htc] at h
    subst h
    simp
  | some coords =>
    cases hc : coords[i]? with
    | none => simp [hp, hn, ht, hb, htc, hc] at h
    | some c =>
      simp [hp, hn, ht, hb, htc, hc] at h
      subst h
      simp [hc]

theorem processMesh_of_parts (env : Env) (mesh : aiMesh) (scene : aiScene) (self : Model)
    (w : World) (vs : List Vertex) (material : aiMaterial)
    (hvs : Model.processMesh_vertices mesh mesh.mNumVertices 0 = some vs)
    (hmat : scene.mMaterials[mesh.mMaterialIndex]? = some material) :
    Model.processMesh env mesh scene self w =
      some ((Mesh.new env vs (Model.processMesh_indices mesh.mFaces)
              (Model.processMesh_textures env material self w).1
              (Model.processMesh_textures env material self w).2.2).1,
            (Model.processMesh_textures env material self w).2.1,
            (Mesh.new env vs (Model.processMesh_indices mesh.mFaces)
              (Model.processMesh_textures env material self w).1
              (Model.processMesh_textures env material self w).2.2).2) := by
  simp only [Model.processMesh, hvs, hmat]

theorem Mesh_new_fields (env : Env) (vs : List Vertex) (is : List Nat) (ts : List Texture)
    (w : World) :
    (Mesh.new env vs is ts w).1.vertices = vs ∧ (Mesh.new env vs is ts w).1.indices = is ∧
      (Mesh.new env vs is ts w).1.textures = ts :=
  ⟨rfl, rfl, rfl⟩

theorem wellFormed_vertices (mesh : aiMesh)
    (hp : mesh.mVertices.length = mesh.mNumVertices)
    (hn : mesh.mNormals.length = mesh.mNumVertices)
    (ht : mesh.mTangents.length = mesh.mNumVertices)
    (hb : mesh.mBitangents.length = mesh.mNumVertices)
    (hc : ∀ coords, mesh.mTextureCoords0 = some coords → coords.length = mesh.mNumVertices) :
    ∃ vs, Model.processMesh_vertices mesh mesh.mNumVertices 0 = some vs ∧
      vs.length = mesh.mNumVertices ∧
      ∀ j, j < mesh.mNumVertices → vs[j]? = Model.processMesh_vertex mesh j := by
  have h := processMesh_vertices_some mesh mesh.mNumVertices 0 (fun j hj => by
    rw [Nat.zero_add]
    exact processMesh_vertex_some mesh j (hp ▸ hj) (hn ▸ hj) (ht ▸ hj) (hb ▸ hj)
      (fun coords hcs => (hc coords hcs) ▸ hj))
  obtain ⟨vs, h1, h2, h3⟩ := h
  exact ⟨vs, h1, h2, fun j hj => by simpa using h3 j hj⟩

/-- C5. For a raw mesh whose position, normal, tangent and bitangent arrays have
`mNumVertices` entries (and whose texture-coordinate set 0, when present, has them
too, so that its `i`-th entry exists), the vertex loop of `processMesh` returns exactly
`mNumVertices` vertices; the `i`-th one carries the `i`-th position, normal, tangent and
bitangent unchanged, and as texture coordinate the `(x, y)` of the `i`-th entry of set 0
when the set is present, `(0, 0)` when it is absent.  In every scene in which the
material index of the mesh is valid, `processMesh` returns a `Mesh` with these
vertices. -/
theorem C5_processMesh_vertices (mesh : aiMesh)
    (hp : mesh.mVertices.length = mesh.mNumVertices)
    (hn : mesh.mNormals.length = mesh.mNumVertices)
    (ht : mesh.mTangents.length = mesh.mNumVertices)
    (hb : mesh.mBitangents.length = mesh.mNumVertices)
    (hc : ∀ coords, mesh.mTextureCoords0 = some coords → coords.length = mesh.mNumVertices) :
    ∃ vs, Model.processMesh_vertices mesh mesh.mNumVertices 0 = some vs ∧
      vs.length = mesh.mNumVertices ∧
      (∀ i, i < mesh.mNumVertices → ∃ v, vs[i]? = some v ∧
        (∃ p, mesh.mVertices[i]? = some p ∧ v.Position = { x := p.x, y := p.y, z := p.z }) ∧
        (∃ n, mesh.mNormals[i]? = some n ∧ v.Normal = { x := n.x, y := n.y, z := n.z }) ∧
        (∃ t, mesh.mTangents[i]? = some t ∧ v.Tangent = { x := t.x, y := t.y, z := t.z }) ∧
        (∃ b, mesh.mBitangents[i]? = some b ∧
          v.Bitangent = { x := b.x, y := b.y, z := b.z }) ∧
        (∀ coords, mesh.mTextureCoords0 = some coords →
          ∃ c, coords[i]? = some c ∧ v.TexCoords = { x := c.x, y := c.y }) ∧
        (mesh.mTextureCoords0 = none → v.TexCoords = { x := 0, y := 0 })) ∧
      (∀ (env : Env) (scene : aiScene) (self : Model) (w : World),
        mesh.mMaterialIndex < scene.mMaterials.length →
        ∃ r, Model.processMesh env mesh scene self w = some r ∧ r.1.vertices = vs) := by
  obtain ⟨vs, hvs, hlen, hget⟩ := wellFormed_vertices mesh hp hn ht hb hc
  refine ⟨vs, hvs, hlen, ?_, ?_⟩
  · intro i hi
    have hlt : i < vs.length := hlen ▸ hi
    refine ⟨vs[i], List.getElem?_eq_getElem hlt, ?_⟩
    apply processMesh_vertex_spec mesh i
    rw [← hget i hi, List.getElem?_eq_getElem hlt]
  · intro env scene self w hm
    refine ⟨_, processMesh_of_parts env mesh scene self w vs _ hvs
      (List.getElem?_eq_getElem hm), ?_⟩
    exact (Mesh_new_fields env vs _ _ _).1

/-- Witness for C5 on `exampleMesh0`. -/
theorem C5_processMesh_vertices_witness :
    ∃ vs, Model.processMesh_vertices exampleMesh0 exampleMesh0.mNumVertices 0 = some vs ∧
      vs.length = exampleMesh0.mNumVertices ∧
      (∀ i, i < exampleMesh0.mNumVertices → ∃ v, vs[i]? = some v ∧
        (∃ p, exampleMesh0.mVertices[i]? = some p ∧
          v.Position = { x := p.x, y := p.y, z := p.z }) ∧
        (∃ n, exampleMesh0.mNormals[i]? = some n ∧
          v.Normal = { x := n.x, y := n.y, z := n.z }) ∧
        (∃ t, exampleMesh0.mTangents[i]? = some t ∧
          v.Tangent = { x := t.x, y := t.y, z := t.z }) ∧
        (∃ b, exampleMesh0.mBitangents[i]? = some b ∧
          v.Bitangent = { x := b.x, y := b.y, z := b.z }) ∧
        (∀ coords, exampleMesh0.mTextureCoords0 = some coords →
          ∃ c, coords[i]? = some c ∧ v.TexCoords = { x := c.x, y := c.y }) ∧
        (exampleMesh0.mTextureCoords0 = none → v.TexCoords = { x := 0, y := 0 })) ∧
      (∀ (env : Env) (scene : aiScene) (self : Model) (w : World),
        exampleMesh0.mMaterialIndex < scene.mMaterials.length →
        ∃ r, Model.processMesh env exampleMesh0 scene self w = some r ∧ r.1.vertices = vs) :=
  C5_processMesh_vertices exampleMesh0 rfl rfl rfl rfl
    (fun coords h => by
      have : coords = [⟨0, 1, 0⟩, ⟨1, 1, 0⟩] := (Option.some.inj h).symm
      rw [this]; rfl)

theorem body_preserves (env : Env) (typeName str : String)
    (s : List Texture × Model × World) :
    (Model.loadMaterialTextures_body env typeName s str).2.1.meshes = s.2.1.meshes ∧
    (Model.loadMaterialTextures_body env typeName s str).2.1.directory = s.2.1.directory := by
  unfold Model.loadMaterialTextures_body
  cases Model.loadMaterialTextures_find str s.2.1.textures_loaded <;> exact ⟨rfl, rfl⟩

theorem loadMaterialTextures_preserves (env : Env) (mat : aiMaterial) (type : aiTextureType)
    (typeName : String) (self : Model) (w : World) :
    (Model.loadMaterialTextures env mat type typeName self w).2.1.meshes = self.meshes ∧
    (Model.loadMaterialTextures env mat type typeName self w).2.1.directory
      = self.directory := by
  unfold Model.loadMaterialTextures
  generalize ([] : List Texture) = acc
  induction mat.GetTextures type generalizing acc self w with
  | nil => exact ⟨rfl, rfl⟩
  | cons str rest ih =>
    simp only [List.foldl_cons]
    have hb := body_preserves env typeName str (acc, self, w)
    have := ih (Model.loadMaterialTextures_body env typeName (acc, self, w) str).2.1
      (Model.loadMaterialTextures_body env typeName (acc, self, w) str).2.2
      (Model.loadMaterialTextures_body env typeName (acc, self, w) str).1
    exact ⟨this.1.trans hb.1, this.2.trans hb.2⟩

theorem processMesh_textures_preserves (env : Env) (material : aiMaterial) (self : Model)
    (w : World) :
    (Model.processMesh_textures env material self w).2.1.meshes = self.meshes := by
  simp only [Model.processMesh_textures, loadMaterialTextures_preserves]

theorem processMesh_some (env : Env) (mesh : aiMesh) (scene : aiScene) (self : Model)
    (w : World) (r : Mesh × Model × World)
    (h : Model.processMesh env mesh scene self w = some r) :
    Model.processMesh_vertices mesh mesh.mNumVertices 0 = some r.1.vertices ∧
    r.1.indices = Model.processMesh_indices mesh.mFaces ∧
    r.2.1.meshes = self.meshes := by
  unfold Model.processMesh at h
  cases hvs : Model.processMesh_vertices mesh mesh.mNumVertices 0 with
  | none => simp [hvs] at h
  | some vs =>
    cases hmat : scene.mMaterials[mesh.mMaterialIndex]? with
    | none => simp [hvs, hmat] at h
    | some material =>
      simp only [hvs, hmat, Option.some.injEq] at h
      subst h
      exact ⟨rfl, rfl, processMesh_textures_preserves env material self w⟩

theorem processMesh_total (env : Env) (mesh : aiMesh) (scene : aiScene) (self : Model)
    (w : World) (h : aiMesh.wellFormed scene mesh) :
    ∃ r, Model.processMesh env mesh scene self w = some r := by
  obtain ⟨hp, hn, ht, hb, hc, hm⟩ := h
  obtain ⟨vs, hvs, _, _⟩ := wellFormed_vertices mesh hp hn ht hb hc
  exact ⟨_, processMesh_of_parts env mesh scene self w vs _ hvs (List.getElem?_eq_getElem hm)⟩

theorem processNode_meshes_append (env : Env) (scene : aiScene) (a b : List Nat)
    (self : Model) (w : World) :
    Model.processNode_meshes env scene (a ++ b) self w =
      match Model.processNode_meshes env scene a self w with
      | none => none
      | some r => Model.processNode_meshes env scene b r.1 r.2 := by
  induction a generalizing self w with
  | nil => rfl
  | cons k rest ih =>
    simp only [List.cons_append, Model.processNode_meshes]
    cases hk : scene.mMeshes[k]? with
    | none => rfl
    | some mesh =>
      cases hpm : Model.processMesh env mesh scene self w with
      | none => simp only [hpm]
      | some r => simp only [hpm]; exact ih _ _

theorem processNode_meshes_some (env : Env) (scene : aiScene) (refs : List Nat)
    (self : Model) (w : World) (r : Model × World)
    (h : Model.processNode_meshes env scene refs self w = some r) :
    ∃ ms, r.1.meshes = self.meshes ++ ms ∧ List.Forall₂ (Mesh.isImageOf scene) refs ms := by
  induction refs generalizing self w with
  | nil =>
    simp only [Model.processNode_meshes, Option.some.injEq] at h
    subst h
    exact ⟨[], by simp, List.Forall₂.nil⟩
  | cons k rest ih =>
    simp only [Model.processNode_meshes] at h
    cases hk : scene.mMeshes[k]? with
    | none => simp [hk] at h
    | some mesh =>
      cases hpm : Model.processMesh env mesh scene self w with
      | none => simp [hk, hpm] at h
      | some pr =>
        simp only [hk, hpm] at h
        obtain ⟨ms, hms, hall⟩ := ih _ _ h
        obtain ⟨hv, hi, hmm⟩ := processMesh_some env mesh scene self w pr hpm
        refine ⟨pr.1 :: ms, ?_, List.Forall₂.cons ⟨mesh, hk, hv, hi⟩ hall⟩
        rw [hms]
        simp [hmm]

theorem processNode_meshes_total (env : Env) (scene : aiScene) (refs : List Nat)
    (self : Model) (w : World) (h : aiScene.refsWellFormed scene refs) :
    ∃ r, Model.processNode_meshes env scene refs self w = some r := by
  induction refs generalizing self w with
  | nil => exact ⟨_, rfl⟩
  | cons k rest ih =>
    obtain ⟨mesh, hk, hwf⟩ := h k (List.mem_cons_self _ _)
    obtain ⟨pr, hpr⟩ := processMesh_total env mesh scene self w hwf
    simp only [Model.processNode_meshes, hk, hpr]
    exact ih _ _ (fun j hj => h j (List.mem_cons_of_mem _ hj))

mutual
theorem processNode_eq_meshes (env : Env) (scene : aiScene) :
    ∀ (node : aiNode) (self : Model) (w : World),
      Model.processNode env scene node self w =
        Model.processNode_meshes env scene (aiNode.preorder node) self w
  | .mk mMeshes mChildren, self, w => by
    rw [aiNode.preorder, processNode_meshes_append, Model.processNode]
    cases Model.processNode_meshes env scene mMeshes self w with
    | none => rfl
    | some r => exact processNode_children_eq_meshes env scene mChildren r.1 r.2
theorem processNode_children_eq_meshes (env : Env) (scene : aiScene) :
    ∀ (children : List aiNode) (self : Model) (w : World),
      Model.processNode_children env scene children self w =
        Model.processNode_meshes env scene (aiNode.preorderChildren children) self w
  | [], self, w => by
    rw [aiNode.preorderChildren, Model.processNode_children, Model.processNode_meshes]
  | child :: rest, self, w => by
    rw [aiNode.preorderChildren, processNode_meshes_append, Model.processNode_children,
      processNode_eq_meshes env scene child self w]
    cases Model.processNode_meshes env scene (aiNode.preorder child) self w with
    | none => rfl
    | some r => exact processNode_children_eq_meshes env scene rest r.1 r.2
end

mutual
theorem preorder_length : ∀ (node : aiNode),
    (aiNode.preorder node).length = aiNode.sumNumMeshes node
  | .mk mMeshes mChildren => by
    rw [aiNode.preorder, aiNode.sumNumMeshes, List.length_append,
      preorderChildren_length mChildren]
theorem preorderChildren_length : ∀ (children : List aiNode),
    (aiNode.preorderChildren children).length = aiNode.sumNumMeshesChildren children
  | [] => by rw [aiNode.preorderChildren, aiNode.sumNumMeshesChildren]; rfl
  | child :: rest => by
    rw [aiNode.preorderChildren, aiNode.sumNumMeshesChildren, List.length_append,
      preorder_length child, preorderChildren_length rest]
end

/-- C2. For every node tree, `processNode` on the root does exactly what the mesh loop does
on the pre-order, depth-first listing of the tree's mesh references (own references first,
in stored order, then the children in child order), each reference being looked up in
the scene's mesh array; the listing has as many entries as the sum of `mNumMeshes` over
all nodes.  When every reference denotes a well-formed mesh, `processNode` returns, and
the meshes it appended correspond one to one, in order, to the references of the listing,
so their number is that sum. -/
theorem C2_processNode_preorder (env : Env) (scene : aiScene) (node : aiNode) (self : Model)
    (w : World) :
    Model.processNode env scene node self w =
      Model.processNode_meshes env scene (aiNode.preorder node) self w ∧
    (aiNode.preorder node).length = aiNode.sumNumMeshes node ∧
    (aiScene.refsWellFormed scene (aiNode.preorder node) →
      ∃ r ms, Model.processNode env scene node self w = some r ∧
        r.1.meshes = self.meshes ++ ms ∧
        List.Forall₂ (Mesh.isImageOf scene) (aiNode.preorder node) ms ∧
        ms.length = aiNode.sumNumMeshes node) := by
  refine ⟨processNode_eq_meshes env scene node self w, preorder_length node, fun hwf => ?_⟩
  obtain ⟨r, hr⟩ := processNode_meshes_total env scene (aiNode.preorder node) self w hwf
  obtain ⟨ms, hms, hall⟩ := processNode_meshes_some env scene _ self w r hr
  refine ⟨r, ms, ?_, hms, hall, ?_⟩
  · rw [processNode_eq_meshes, hr]
  · rw [← hall.length_eq, preorder_length]

theorem exampleScene_refsWellFormed :
    aiScene.refsWellFormed exampleScene (aiNode.preorder exampleNode) := by
  intro k hk
  have hk2 : k = 0 ∨ k = 1 := by
    simp [exampleNode, aiNode.preorder, aiNode.preorderChildren] at hk
    omega
  rcases hk2 with rfl | rfl
  · refine ⟨exampleMesh0, rfl, rfl, rfl, rfl, rfl, ?_, by decide⟩
    intro coords h
    have : coords = [⟨0, 1, 0⟩, ⟨1, 1, 0⟩] := (Option.some.inj h).symm
    rw [this]; rfl
  · refine ⟨exampleMesh1, rfl, rfl, rfl, rfl, rfl, ?_, by decide⟩
    intro coords h
    exact absurd h (by simp [exampleMesh1])

/-- Witness for C2 on `exampleScene`: the listing is `[0, 1, 0, 1]` and four meshes are
appended. -/
theorem C2_processNode_preorder_witness :
    aiNode.preorder exampleNode = [0, 1, 0, 1] ∧
    ∃ r ms, Model.processNode exampleEnv exampleScene exampleNode exampleModel [] = some r ∧
      r.1.meshes = exampleModel.meshes ++ ms ∧
      List.Forall₂ (Mesh.isImageOf exampleScene) (aiNode.preorder exampleNode) ms ∧
      ms.length = aiNode.sumNumMeshes exampleNode :=
  ⟨by simp [exampleNode, aiNode.preorder, aiNode.preorderChildren],
   (C2_processNode_preorder exampleEnv exampleScene exampleNode exampleModel []).2.2
     exampleScene_refsWellFormed⟩

/-- C3. Failure mode of `loadModel`: if the importer returns no scene, or the scene has the
incomplete flag set, or the scene has no root node, `loadModel` writes one diagnostic
and returns with the model untouched (so `directory` is unchanged, no node is processed
and no texture is loaded); called from the constructor, this leaves `meshes` and
`textures_loaded` empty.  Otherwise `directory` is set and `processNode` is run on the
root node. -/
theorem C3_loadModel_failure_mode (env : Env) (path : String) (self : Model) (gamma : Bool)
    (w : World) :
    (((env.ReadFile path).scene = none ∨
        ∃ scene, (env.ReadFile path).scene = some scene ∧
          (scene.mFlags &&& AI_SCENE_FLAGS_INCOMPLETE ≠ 0 ∨ scene.mRootNode = none)) →
      Model.loadModel env path self w =
        some (self, w ++ [Event.cout
          ("ERROR::ASSIMP:: " ++ (env.ReadFile path).GetErrorString ++ "\n")]) ∧
      Model.new env path gamma w =
        some ({ textures_loaded := [], meshes := [], directory := "",
                gammaCorrection := gamma },
              w ++ [Event.cout
                ("ERROR::ASSIMP:: " ++ (env.ReadFile path).GetErrorString ++ "\n")])) ∧
    (∀ scene root, (env.ReadFile path).scene = some scene →
      scene.mFlags &&& AI_SCENE_FLAGS_INCOMPLETE = 0 → scene.mRootNode = some root →
      Model.loadModel env path self w =
        Model.processNode env scene root
          { self with directory := substr0 path (find_last_of path '/') } w) := by
  have key : ∀ m : Model,
      ((env.ReadFile path).scene = none ∨
        ∃ scene, (env.ReadFile path).scene = some scene ∧
          (scene.mFlags &&& AI_SCENE_FLAGS_INCOMPLETE ≠ 0 ∨ scene.mRootNode = none)) →
      Model.loadModel env path m w =
        some (m, w ++ [Event.cout
          ("ERROR::ASSIMP:: " ++ (env.ReadFile path).GetErrorString ++ "\n")]) := by
    intro m h
    unfold Model.loadModel
    rcases h with h | ⟨scene, hs, h⟩
    · simp only [h]
    · simp only [hs]
      by_cases hf : scene.mFlags &&& AI_SCENE_FLAGS_INCOMPLETE ≠ 0
      · rw [if_pos hf]
      · rcases h with h | h
        · exact absurd h hf
        · rw [if_neg hf]; simp only [h]
  refine ⟨fun h => ⟨key self h, key _ h⟩, ?_⟩
  intro scene root hs hf hr
  unfold Model.loadModel
  simp only [hs, hr]
  rw [if_neg (not_not.mpr hf)]

/-- Witness for C3: `exampleEnv` cannot import `"missing.obj"`, and imports
`"res/model.obj"` as a complete scene with a root node. -/
theorem C3_loadModel_failure_mode_witness :
    Model.new exampleEnv "missing.obj" false [] =
      some ({ textures_loaded := [], meshes := [], directory := "",
              gammaCorrection := false },
            [Event.cout "ERROR::ASSIMP:: Unable to open file\n"]) ∧
    Model.loadModel exampleEnv "res/model.obj" exampleModel [] =
      Model.processNode exampleEnv exampleScene exampleNode
        { exampleModel with directory := "res" } [] :=
  ⟨((C3_loadModel_failure_mode exampleEnv "missing.obj" exampleModel false []).1
      (Or.inl rfl)).2,
   (C3_loadModel_failure_mode exampleEnv "res/model.obj" exampleModel false []).2
      exampleScene exampleNode rfl rfl rfl⟩

/-- C6. The texture part of `processMesh` on `exampleBumpMaterial`, whose normals slot
holds `n.png` and whose height slot holds `h.png`: the only texture produced is `h.png`,
tagged `texture_normal`; `n.png` is not loaded and nothing is tagged
`texture_height`. -/
theorem C6_processMesh_textures_height_slot :
    (Model.processMesh_textures exampleEnv exampleBumpMaterial exampleModel []).1 =
      [{ id := 101, type := "texture_normal", path := "h.png" }] := by
  rfl

theorem Draw_number_fst (type : String) (c : DrawCounters) (h : Texture.recognised type) :
    (Mesh.Draw_number type c).1 =
      if type = "texture_diffuse" then decimal c.diffuseNr
      else if type = "texture_specular" then decimal c.specularNr
      else if type = "texture_normal" then decimal c.normalNr
      else decimal c.heightNr := by
  unfold Mesh.Draw_number
  rcases h with h | h | h | h <;> subst h <;> simp <;> rfl

/-- The value of the counter of `type` in `c`. -/
theorem Draw_counters_count (ts : List Texture) (c : DrawCounters) :
    (Mesh.Draw_counters ts c).diffuseNr
        = c.diffuseNr + (ts.map (fun t => t.type)).count "texture_diffuse" ∧
    (Mesh.Draw_counters ts c).specularNr
        = c.specularNr + (ts.map (fun t => t.type)).count "texture_specular" ∧
    (Mesh.Draw_counters ts c).normalNr
        = c.normalNr + (ts.map (fun t => t.type)).count "texture_normal" ∧
    (Mesh.Draw_counters ts c).heightNr
        = c.heightNr + (ts.map (fun t => t.type)).count "texture_height" := by
  induction ts generalizing c with
  | nil => simp [Mesh.Draw_counters]
  | cons t rest ih =>
    have h := ih (Mesh.Draw_number t.type c).2
    simp only [Mesh.Draw_counters, List.foldl_cons] at h ⊢
    simp only [List.map_cons, List.count_cons]
    obtain ⟨h1, h2, h3, h4⟩ := h
    rw [h1, h2, h3, h4]
    unfold Mesh.Draw_number
    by_cases hd : t.type = "texture_diffuse"
    · simp [hd]; omega
    · by_cases hs : t.type = "texture_specular"
      · simp [hs]; omega
      · by_cases hn : t.type = "texture_normal"
        · simp [hn]; omega
        · by_cases hh : t.type = "texture_height"
          · simp [hh]; omega
          · simp [hd, hs, hn, hh]

theorem Draw_loop_length (env : Env) (shader : Shader) (ts : List Texture) (i0 : Nat)
    (c : DrawCounters) : (Mesh.Draw_loop env shader ts i0 c).length = 4 * ts.length := by
  induction ts generalizing i0 c with
  | nil => rfl
  | cons t rest ih =>
    simp only [Mesh.Draw_loop, List.length_append, List.length_cons, List.length_nil, ih]
    omega

theorem Draw_loop_at (env : Env) (shader : Shader) (ts : List Texture) (i0 : Nat)
    (c : DrawCounters) (j : Nat) (t : Texture) (h : ts[j]? = some t) :
    (Mesh.Draw_loop env shader ts i0 c)[4 * j]?
      = some (Event.glActiveTexture (GL_TEXTURE0 + (i0 + j))) ∧
    (Mesh.Draw_loop env shader ts i0 c)[4 * j + 1]?
      = some (Event.glGetUniformLocation shader.ID
          (t.type ++ (Mesh.Draw_number t.type (Mesh.Draw_counters (ts.take j) c)).1)) ∧
    (Mesh.Draw_loop env shader ts i0 c)[4 * j + 2]?
      = some (Event.glUniform1i (env.glGetUniformLocation shader.ID
          (t.type ++ (Mesh.Draw_number t.type (Mesh.Draw_counters (ts.take j) c)).1))
          (i0 + j)) ∧
    (Mesh.Draw_loop env shader ts i0 c)[4 * j + 3]?
      = some (Event.glBindTexture .GL_TEXTURE_2D t.id) := by
  induction ts generalizing i0 c j with
  | nil => simp at h
  | cons u rest ih =>
    cases j with
    | zero =>
      simp only [List.getElem?_cons_zero, Option.some.injEq] at h
      subst h
      simp [Mesh.Draw_loop, Mesh.Draw_counters]
    | succ j =>
      simp only [List.getElem?_cons_succ] at h
      obtain ⟨h0, h1, h2, h3⟩ := ih (i0 + 1) (Mesh.Draw_number u.type c).2 j h
      have hc : Mesh.Draw_counters (List.take (j + 1) (u :: rest)) c
          = Mesh.Draw_counters (List.take j rest) (Mesh.Draw_number u.type c).2 := by
        simp [Mesh.Draw_counters]
      have e0 : 4 * (j + 1) = 4 * j + 4 := by omega
      have e1 : 4 * j + 4 + 1 = 4 * j + 1 + 4 := by omega
      have e2 : 4 * j + 4 + 2 = 4 * j + 2 + 4 := by omega
      have e3 : 4 * j + 4 + 3 = 4 * j + 3 + 4 := by omega
      have ei : i0 + (j + 1) = i0 + 1 + j := by omega
      rw [hc, e0, e1, e2, e3, ei]
      simp only [Mesh.Draw_loop, List.cons_append, List.nil_append, List.getElem?_cons_succ]
      exact ⟨h0, h1, h2, h3⟩

theorem Draw_number_recognised (ts : List Texture) (type : String)
    (h : Texture.recognised type) :
    (Mesh.Draw_number type (Mesh.Draw_counters ts Mesh.Draw_init)).1
      = decimal (1 + (ts.map (fun u => u.type)).count type) := by
  rw [Draw_number_fst type _ h]
  obtain ⟨h1, h2, h3, h4⟩ := Draw_counters_count ts Mesh.Draw_init
  rw [h1, h2, h3, h4]
  rcases h with h | h | h | h <;> subst h <;> simp [Mesh.Draw_init]

theorem Draw_get (env : Env) (self : Mesh) (shader : Shader) (w : World) (k : Nat)
    (hk : k < 4 * self.textures.length) :
    (Mesh.Draw env self shader w)[w.length + k]?
      = (Mesh.Draw_loop env shader self.textures 0 Mesh.Draw_init)[k]? := by
  unfold Mesh.Draw
  rw [List.append_assoc, List.getElem?_append_right (Nat.le_add_right _ _),
    Nat.add_sub_cancel_left, List.getElem?_append_left]
  · rfl
  · rw [Draw_loop_length]; exact hk

/-- C7. Uniform naming in `Mesh::Draw`: for every texture list and every position `i`
whose texture has one of the types `texture_diffuse`, `texture_specular`,
`texture_normal`, `texture_height`, the name looked up for texture `i` (the second of the
four calls made for it) is its type followed by the decimal numeral of `1` plus the
number of textures of the same type before position `i`. -/
theorem C7_uniform_naming (env : Env) (self : Mesh) (shader : Shader) (w : World) (i : Nat)
    (t : Texture) (h : self.textures[i]? = some t) (hrec : Texture.recognised t.type) :
    (Mesh.Draw env self shader w)[w.length + (4 * i + 1)]?
      = some (Event.glGetUniformLocation shader.ID
          (t.type ++
            decimal (1 + ((self.textures.take i).map (fun u => u.type)).count t.type))) := by
  have hi : i < self.textures.length := by
    rcases Nat.lt_or_ge i self.textures.length with hlt | hge
    · exact hlt
    · rw [List.getElem?_eq_none hge] at h
      exact absurd h (by simp)
  rw [Draw_get env self shader w (4 * i + 1) (by omega),
    (Draw_loop_at env shader self.textures 0 Mesh.Draw_init i t h).2.1,
    Draw_number_recognised _ _ hrec]

/-- Witness for C7: the second diffuse texture of `exampleTextures` is looked up as
`texture_diffuse2`. -/
theorem C7_uniform_naming_witness :
    (Mesh.Draw exampleEnv
        { vertices := [], indices := [], textures := exampleTextures, VAO := 1, VBO := 2,
          EBO := 3 } { ID := 7 } [])[5]?
      = some (Event.glGetUniformLocation 7 "texture_diffuse2") :=
  C7_uniform_naming exampleEnv
    { vertices := [], indices := [], textures := exampleTextures, VAO := 1, VBO := 2,
      EBO := 3 } { ID := 7 } [] 1 { id := 12, type := "texture_diffuse", path := "b.png" }
    rfl (Or.inl rfl)

/-- C8. Texture-unit assignment in `Mesh::Draw` for a mesh with `n` textures: the trace
grows by `4 * n + 3` calls; for `i = 0, ..., n - 1` in this order, unit `i` is
activated (`GL_TEXTURE0 + i`), the uniform name of texture `i` is looked up, the uniform
at the location found is set to the integer `i`, and the GPU id `textures[i].id` is
bound (so all three happen while unit `i` is the active one); then the
mesh's VAO is bound, one indexed draw call with element count `indices.size()` is
issued, and the VAO is unbound. -/
theorem C8_texture_units (env : Env) (self : Mesh) (shader : Shader) (w : World) :
    (Mesh.Draw env self shader w).length = w.length + 4 * self.textures.length + 3 ∧
    (Mesh.Draw env self shader w).take w.length = w ∧
    (∀ i t, self.textures[i]? = some t →
      (Mesh.Draw env self shader w)[w.length + (4 * i)]?
        = some (Event.glActiveTexture (GL_TEXTURE0 + i)) ∧
      (Mesh.Draw env self shader w)[w.length + (4 * i + 1)]?
        = some (Event.glGetUniformLocation shader.ID (Mesh.Draw_name self.textures i t)) ∧
      (Mesh.Draw env self shader w)[w.length + (4 * i + 2)]?
        = some (Event.glUniform1i
            (env.glGetUniformLocation shader.ID (Mesh.Draw_name self.textures i t)) i) ∧
      (Mesh.Draw env self shader w)[w.length + (4 * i + 3)]?
        = some (Event.glBindTexture .GL_TEXTURE_2D t.id)) ∧
    (Mesh.Draw env self shader w).drop (w.length + 4 * self.textures.length)
      = [ Event.glBindVertexArray self.VAO,
          Event.glDrawElements .GL_TRIANGLES self.indices.length .GL_UNSIGNED_INT,
          Event.glBindVertexArray 0 ] := by
  refine ⟨?_, ?_, ?_, ?_⟩
  · simp only [Mesh.Draw, List.length_append, Draw_loop_length, List.length_cons,
      List.length_nil]
  · simp only [Mesh.Draw, List.append_assoc, List.take_left']
  · intro i t h
    have hi : i < self.textures.length := by
      rcases Nat.lt_or_ge i self.textures.length with hlt | hge
      · exact hlt
      · rw [List.getElem?_eq_none hge] at h
        exact absurd h (by simp)
    obtain ⟨h0, h1, h2, h3⟩ := Draw_loop_at env shader self.textures 0 Mesh.Draw_init i t h
    rw [Nat.zero_add] at h0 h2
    refine ⟨?_, ?_, ?_, ?_⟩
    · rw [Draw_get env self shader w (4 * i) (by omega)]; exact h0
    · rw [Draw_get env self shader w (4 * i + 1) (by omega)]; exact h1
    · rw [Draw_get env self shader w (4 * i + 2) (by omega)]; exact h2
    · rw [Draw_get env self shader w (4 * i + 3) (by omega)]; exact h3
  · have hl : (w ++ Mesh.Draw_loop env shader self.textures 0 Mesh.Draw_init).length
        = w.length + 4 * self.textures.length := by
      rw [List.length_append, Draw_loop_length]
    unfold Mesh.Draw
    rw [← hl]
    exact List.drop_left _ _

/-- Witness for C8 on `exampleTextures`: the fourth texture (index 3) is bound on unit 3
with its sampler set to 3. -/
theorem C8_texture_units_witness :
    (Mesh.Draw exampleEnv
        { vertices := [], indices := [4, 5, 6], textures := exampleTextures, VAO := 1,
          VBO := 2, EBO := 3 } { ID := 7 } [])[0 + (4 * 3)]?
      = some (Event.glActiveTexture (GL_TEXTURE0 + 3)) ∧
    (Mesh.Draw exampleEnv
        { vertices := [], indices := [4, 5, 6], textures := exampleTextures, VAO := 1,
          VBO := 2, EBO := 3 } { ID := 7 } [])[0 + (4 * 3 + 1)]?
      = some (Event.glGetUniformLocation 7 "texture_emissive") ∧
    (Mesh.Draw exampleEnv
        { vertices := [], indices := [4, 5, 6], textures := exampleTextures, VAO := 1,
          VBO := 2, EBO := 3 } { ID := 7 } [])[0 + (4 * 3 + 2)]?
      = some (Event.glUniform1i 16 3) ∧
    (Mesh.Draw exampleEnv
        { vertices := [], indices := [4, 5, 6], textures := exampleTextures, VAO := 1,
          VBO := 2, EBO := 3 } { ID := 7 } [])[0 + (4 * 3 + 3)]?
      = some (Event.glBindTexture .GL_TEXTURE_2D 14) :=
  (C8_texture_units exampleEnv
    { vertices := [], indices := [4, 5, 6], textures := exampleTextures, VAO := 1, VBO := 2,
      EBO := 3 } { ID := 7 } []).2.2.1 3
    { id := 14, type := "texture_emissive", path := "d.png" } rfl

/-- C9. Vertex attribute layout of `setupMesh`, with tightly packed 4-byte floats:
exactly the slots 0 to 4 are enabled, with 3, 3, 2, 3, 3 components, a common stride of
56 bytes (14 floats) and byte offsets 0, 12, 24, 32, 44; every offset is the sum of the
sizes of the attributes before it and the sizes add up to the stride (no overlap, no
gap); and the attribute calls are the same as the hard-coded ones of `renderQuad`. -/
theorem C9_vertex_attribute_layout (env : Env) (self : Mesh) (w : World) :
    ∃ d, (Mesh.setupMesh env self w).2 = w ++ d ∧
      enabledAttribs d = [0, 1, 2, 3, 4] ∧
      attribPointers d =
        [(0, 3, 56, 0), (1, 3, 56, 12), (2, 2, 56, 24), (3, 3, 56, 32), (4, 3, 56, 44)] ∧
      sizeof_Vertex = 14 * sizeof_float ∧
      (attribPointers d).map (fun a => a.2.2.2)
        = startOffsets ((attribPointers d).map (fun a => a.2.1 * sizeof_float)) 0 ∧
      ((attribPointers d).map (fun a => a.2.1 * sizeof_float)).sum = sizeof_Vertex ∧
      d.filter isAttribCall = renderQuad_attributes := by
  simp only [Mesh.setupMesh, List.append_assoc]
  exact ⟨_, rfl, rfl, rfl, rfl, rfl, rfl, rfl⟩

theorem formatOfChannels_eq (n : Int) :
    (if n = 1 then some GLenum.GL_RED
      else if n = 3 then some GLenum.GL_RGB
      else if n = 4 then some GLenum.GL_RGBA
      else none) = formatOfChannels n := by
  unfold formatOfChannels
  by_cases h1 : n = 1
  · subst h1; rfl
  · by_cases h3 : n = 3
    · subst h3; rfl
    · by_cases h4 : n = 4
      · subst h4; rfl
      · have e1 : (n == 1) = false := beq_eq_false_iff_ne.mpr h1
        have e3 : (n == 3) = false := beq_eq_false_iff_ne.mpr h3
        have e4 : (n == 4) = false := beq_eq_false_iff_ne.mpr h4
        simp only [List.lookup, e1, e3, e4, h1, h3, h4, if_false]

/-- C10. Texture format inference: whenever the image decodes, `TextureFromFile` and
`loadTexture` make one upload whose internal format and pixel format are both the
format that the specification assigns to the channel count (1: `GL_RED`, 3: `GL_RGB`,
4: `GL_RGBA`), so the two loaders agree on every channel count; for every other count
there is no format (the variable is passed as it was declared, unassigned). -/
theorem C10_texture_format (env : Env) (path directory : String) (w : World) :
    (∀ data, env.stbi_load (directory ++ "/" ++ path) = some data →
      (TextureFromFile env path directory w).2 =
        w ++ [ Event.call_TextureFromFile path directory,
               Event.glGenTextures (TextureFromFile env path directory w).1,
               Event.stbi_load (directory ++ "/" ++ path),
               Event.glBindTexture .GL_TEXTURE_2D (TextureFromFile env path directory w).1,
               Event.glTexImage2D .GL_TEXTURE_2D 0 (formatOfChannels data.nrComponents)
                 data.width data.height 0 (formatOfChannels data.nrComponents)
                 .GL_UNSIGNED_BYTE,
               Event.glGenerateMipmap .GL_TEXTURE_2D,
               Event.glTexParameteri .GL_TEXTURE_2D .GL_TEXTURE_WRAP_S .GL_REPEAT,
               Event.glTexParameteri .GL_TEXTURE_2D .GL_TEXTURE_WRAP_T .GL_REPEAT,
               Event.glTexParameteri .GL_TEXTURE_2D .GL_TEXTURE_MIN_FILTER
                 .GL_LINEAR_MIPMAP_LINEAR,
               Event.glTexParameteri .GL_TEXTURE_2D .GL_TEXTURE_MAG_FILTER .GL_LINEAR,
               Event.stbi_image_free ]) ∧
    (∀ data, env.stbi_load path = some data →
      (loadTexture env path w).2 =
        w ++ [ Event.glGenTextures (loadTexture env path w).1,
               Event.stbi_load path,
               Event.glBindTexture .GL_TEXTURE_2D (loadTexture env path w).1,
               Event.glTexImage2D .GL_TEXTURE_2D 0 (formatOfChannels data.nrComponents)
                 data.width data.height 0 (formatOfChannels data.nrComponents)
                 .GL_UNSIGNED_BYTE,
               Event.glGenerateMipmap .GL_TEXTURE_2D,
               Event.glTexParameteri .GL_TEXTURE_2D .GL_TEXTURE_WRAP_S .GL_REPEAT,
               Event.glTexParameteri .GL_TEXTURE_2D .GL_TEXTURE_WRAP_T .GL_REPEAT,
               Event.glTexParameteri .GL_TEXTURE_2D .GL_TEXTURE_MIN_FILTER
                 .GL_LINEAR_MIPMAP_LINEAR,
               Event.glTexParameteri .GL_TEXTURE_2D .GL_TEXTURE_MAG_FILTER .GL_LINEAR,
               Event.stbi_image_free ]) ∧
    formatOfChannels 1 = some .GL_RED ∧ formatOfChannels 3 = some .GL_RGB ∧
    formatOfChannels 4 = some .GL_RGBA ∧
    (∀ n : Int, n ≠ 1 → n ≠ 3 → n ≠ 4 → formatOfChannels n = none) := by
  refine ⟨?_, ?_, rfl, rfl, rfl, ?_⟩
  · intro data h
    simp only [TextureFromFile, h, formatOfChannels_eq, List.append_assoc]
    rfl
  · intro data h
    simp only [loadTexture, h, formatOfChannels_eq, List.append_assoc]
    rfl
  · intro n h1 h3 h4
    rw [← formatOfChannels_eq, if_neg h1, if_neg h3, if_neg h4]

/-- Witness for C10: `res/rgb.png` has three channels and is uploaded by
`TextureFromFile` as `GL_RGB`; `res/two.png` has two channels and `loadTexture` uploads
it with no format assigned. -/
theorem C10_texture_format_witness :
    (TextureFromFile exampleEnv "rgb.png" "res" []).2 =
      [ Event.call_TextureFromFile "rgb.png" "res",
        Event.glGenTextures 101,
        Event.stbi_load "res/rgb.png",
        Event.glBindTexture .GL_TEXTURE_2D 101,
        Event.glTexImage2D .GL_TEXTURE_2D 0 (some .GL_RGB) 4 2 0 (some .GL_RGB)
          .GL_UNSIGNED_BYTE,
        Event.glGenerateMipmap .GL_TEXTURE_2D,
        Event.glTexParameteri .GL_TEXTURE_2D .GL_TEXTURE_WRAP_S .GL_REPEAT,
        Event.glTexParameteri .GL_TEXTURE_2D .GL_TEXTURE_WRAP_T .GL_REPEAT,
        Event.glTexParameteri .GL_TEXTURE_2D .GL_TEXTURE_MIN_FILTER .GL_LINEAR_MIPMAP_LINEAR,
        Event.glTexParameteri .GL_TEXTURE_2D .GL_TEXTURE_MAG_FILTER .GL_LINEAR,
        Event.stbi_image_free ] ∧
    (loadTexture exampleEnv "res/two.png" []).2 =
      [ Event.glGenTextures 100,
        Event.stbi_load "res/two.png",
        Event.glBindTexture .GL_TEXTURE_2D 100,
        Event.glTexImage2D .GL_TEXTURE_2D 0 none 2 2 0 none .GL_UNSIGNED_BYTE,
        Event.glGenerateMipmap .GL_TEXTURE_2D,
        Event.glTexParameteri .GL_TEXTURE_2D .GL_TEXTURE_WRAP_S .GL_REPEAT,
        Event.glTexParameteri .GL_TEXTURE_2D .GL_TEXTURE_WRAP_T .GL_REPEAT,
        Event.glTexParameteri .GL_TEXTURE_2D .GL_TEXTURE_MIN_FILTER .GL_LINEAR_MIPMAP_LINEAR,
        Event.glTexParameteri .GL_TEXTURE_2D .GL_TEXTURE_MAG_FILTER .GL_LINEAR,
        Event.stbi_image_free ] :=
  ⟨(C10_texture_format exampleEnv "rgb.png" "res" []).1
      { width := 4, height := 2, nrComponents := 3 } rfl,
   (C10_texture_format exampleEnv "res/two.png" "" []).2.1
      { width := 2, height := 2, nrComponents := 2 } rfl⟩

theorem checkCompileErrors_spec (env : Env) (shader : Nat) (type : String) (w : World) :
    ∃ c, Shader.checkCompileErrors env shader type w = w ++ c ∧
      c.filter isShaderOperation = [] ∧
      (c.filter isDiagnostic).length = (statusResults c).count 0 ∧
      (statusResults c).length = 1 := by
  unfold Shader.checkCompileErrors
  by_cases ht : type ≠ "PROGRAM"
  · rw [if_pos ht]
    by_cases hs : env.glGetShaderiv w shader = 0
    · simp only [hs, if_true, List.append_assoc]
      exact ⟨_, rfl, rfl, rfl, rfl⟩
    · simp only [hs, if_false]
      refine ⟨_, rfl, rfl, ?_, rfl⟩
      simp [isDiagnostic, statusResults, List.filterMap, List.count_cons, hs]
  · rw [if_neg ht]
    by_cases hs : env.glGetProgramiv w shader = 0
    · simp only [hs, if_true, List.append_assoc]
      exact ⟨_, rfl, rfl, rfl, rfl⟩
    · simp only [hs, if_false]
      refine ⟨_, rfl, rfl, ?_, rfl⟩
      simp [isDiagnostic, statusResults, List.filterMap, List.count_cons, hs]

theorem Shader_new_shape (env : Env) (vertexPath fragmentPath : String)
    (geometryPath : Option String) (w : World) :
    ∃ (vertex fragment ID : Nat) (geometry : Option Nat) (d : World),
      (Shader.new env vertexPath fragmentPath geometryPath w).2
        = (Shader.readSources env vertexPath fragmentPath geometryPath w).2 ++ d ∧
      (Shader.new env vertexPath fragmentPath geometryPath w).1.ID = ID ∧
      geometry.isSome = geometryPath.isSome ∧
      d.filter isShaderOperation
        = Shader.operations vertex fragment ID geometry
            (Shader.readSources env vertexPath fragmentPath geometryPath w).1.1
            (Shader.readSources env vertexPath fragmentPath geometryPath w).1.2.1
            (Shader.readSources env vertexPath fragmentPath geometryPath w).1.2.2 ∧
      (d.filter isDiagnostic).length = (statusResults d).count 0 ∧
      (statusResults d).length = if geometryPath.isSome then 4 else 3 := by
  simp only [Shader.new]
  generalize Shader.readSources env vertexPath fragmentPath geometryPath w = src
  obtain ⟨c1, h1, o1, g1, l1⟩ := checkCompileErrors_spec env
    (env.glCreateShader src.2 .GL_VERTEX_SHADER) "VERTEX"
    (src.2 ++ [ Event.glCreateShader .GL_VERTEX_SHADER
                  (env.glCreateShader src.2 .GL_VERTEX_SHADER),
                Event.glShaderSource (env.glCreateShader src.2 .GL_VERTEX_SHADER) src.1.1,
                Event.glCompileShader (env.glCreateShader src.2 .GL_VERTEX_SHADER) ])
  rw [h1]
  generalize env.glCreateShader src.2 .GL_VERTEX_SHADER = vertex at *
  generalize hw1 : src.2 ++ [ Event.glCreateShader .GL_VERTEX_SHADER vertex,
    Event.glShaderSource vertex src.1.1, Event.glCompileShader vertex ] ++ c1 = w1
  obtain ⟨c2, h2, o2, g2, l2⟩ := checkCompileErrors_spec env
    (env.glCreateShader w1 .GL_FRAGMENT_SHADER) "FRAGMENT"
    (w1 ++ [ Event.glCreateShader .GL_FRAGMENT_SHADER
               (env.glCreateShader w1 .GL_FRAGMENT_SHADER),
             Event.glShaderSource (env.glCreateShader w1 .GL_FRAGMENT_SHADER) src.1.2.1,
             Event.glCompileShader (env.glCreateShader w1 .GL_FRAGMENT_SHADER) ])
  rw [h2]
  generalize env.glCreateShader w1 .GL_FRAGMENT_SHADER = fragment at *
  generalize hw2 : w1 ++ [ Event.glCreateShader .GL_FRAGMENT_SHADER fragment,
    Event.glShaderSource fragment src.1.2.1, Event.glCompileShader fragment ] ++ c2 = w2
  cases geometryPath with
  | none =>
    simp only [Shader.compileGeometry]
    obtain ⟨c4, h4, o4, g4, l4⟩ := checkCompileErrors_spec env (env.glCreateProgram w2)
      "PROGRAM"
      (w2 ++ [ Event.glCreateProgram (env.glCreateProgram w2),
               Event.glAttachShader (env.glCreateProgram w2) vertex,
               Event.glAttachShader (env.glCreateProgram w2) fragment ]
          ++ [Event.glLinkProgram (env.glCreateProgram w2)])
    rw [h4]
    generalize env.glCreateProgram w2 = ID at *
    refine ⟨vertex, fragment, ID, none,
      [ Event.glCreateShader .GL_VERTEX_SHADER vertex, Event.glShaderSource vertex src.1.1,
        Event.glCompileShader vertex ] ++ c1
      ++ [ Event.glCreateShader .GL_FRAGMENT_SHADER fragment,
           Event.glShaderSource fragment src.1.2.1, Event.glCompileShader fragment ] ++ c2
      ++ [ Event.glCreateProgram ID, Event.glAttachShader ID vertex,
           Event.glAttachShader ID fragment, Event.glLinkProgram ID ] ++ c4
      ++ [Event.glDeleteShader vertex, Event.glDeleteShader fragment],
      ?_, rfl, rfl, ?_, ?_, ?_⟩
    · rw [← hw2, ← hw1]
      simp only [List.append_assoc, List.cons_append, List.nil_append]
    · simp [List.filter_append, o1, o2, o4, isShaderOperation, Shader.operations]
    · simp [List.filter_append, statusResults, List.filterMap_append, isDiagnostic] at *
      omega
    · simp [statusResults, List.filterMap_append] at *
      omega
  | some gPath =>
    simp only [Shader.compileGeometry]
    obtain ⟨c3, h3, o3, g3, l3⟩ := checkCompileErrors_spec env
      (env.glCreateShader w2 .GL_GEOMETRY_SHADER) "GEOMETRY"
      (w2 ++ [ Event.glCreateShader .GL_GEOMETRY_SHADER
                 (env.glCreateShader w2 .GL_GEOMETRY_SHADER),
               Event.glShaderSource (env.glCreateShader w2 .GL_GEOMETRY_SHADER) src.1.2.2,
               Event.glCompileShader (env.glCreateShader w2 .GL_GEOMETRY_SHADER) ])
    rw [h3]
    generalize env.glCreateShader w2 .GL_GEOMETRY_SHADER = geometry at *
    generalize hw3 : w2 ++ [ Event.glCreateShader .GL_GEOMETRY_SHADER geometry,
      Event.glShaderSource geometry src.1.2.2, Event.glCompileShader geometry ] ++ c3 = w3
    obtain ⟨c4, h4, o4, g4, l4⟩ := checkCompileErrors_spec env (env.glCreateProgram w3)
      "PROGRAM"
      (w3 ++ [ Event.glCreateProgram (env.glCreateProgram w3),
               Event.glAttachShader (env.glCreateProgram w3) vertex,
               Event.glAttachShader (env.glCreateProgram w3) fragment ]
          ++ [Event.glAttachShader (env.glCreateProgram w3) geometry]
          ++ [Event.glLinkProgram (env.glCreateProgram w3)])
    rw [h4]
    generalize env.glCreateProgram w3 = ID at *
    refine ⟨vertex, fragment, ID, some geometry,
      [ Event.glCreateShader .GL_VERTEX_SHADER vertex, Event.glShaderSource vertex src.1.1,
        Event.glCompileShader vertex ] ++ c1
      ++ [ Event.glCreateShader .GL_FRAGMENT_SHADER fragment,
           Event.glShaderSource fragment src.1.2.1, Event.glCompileShader fragment ] ++ c2
      ++ [ Event.glCreateShader .GL_GEOMETRY_SHADER geometry,
           Event.glShaderSource geometry src.1.2.2, Event.glCompileShader geometry ] ++ c3
      ++ [ Event.glCreateProgram ID, Event.glAttachShader ID vertex,
           Event.glAttachShader ID fragment, Event.glAttachShader ID geometry,
           Event.glLinkProgram ID ] ++ c4
      ++ [Event.glDeleteShader vertex, Event.glDeleteShader fragment,
          Event.glDeleteShader geometry],
      ?_, rfl, rfl, ?_, ?_, ?_⟩
    · rw [← hw3, ← hw2, ← hw1]
      simp only [List.append_assoc, List.cons_append, List.nil_append]
    · simp [List.filter_append, o1, o2, o3, o4, isShaderOperation, Shader.operations]
    · simp [List.filter_append, statusResults, List.filterMap_append, isDiagnostic] at *
      omega
    · simp [statusResults, List.filterMap_append] at *
      omega

theorem checkCompileErrors_stage (env : Env) (shader : Nat) (type : String) (w : World)
    (h : type ≠ "PROGRAM") :
    Shader.checkCompileErrors env shader type w
      = w ++ Shader.compileCheck env shader type w := by
  unfold Shader.checkCompileErrors Shader.compileCheck Shader.compileFailure
  rw [if_pos h]
  by_cases hs : env.glGetShaderiv w shader = 0
  · simp only [hs, if_true, List.append_assoc]
    rfl
  · simp only [hs, if_false]

theorem checkCompileErrors_program (env : Env) (program : Nat) (w : World) :
    Shader.checkCompileErrors env program "PROGRAM" w
      = w ++ Shader.linkCheck env program "PROGRAM" w := by
  unfold Shader.checkCompileErrors Shader.linkCheck Shader.linkFailure
  rw [if_neg (not_not.mpr rfl)]
  by_cases hs : env.glGetProgramiv w program = 0
  · simp only [hs, if_true, List.append_assoc]
    rfl
  · simp only [hs, if_false]

theorem compileCheck_filters (env : Env) (shader : Nat) (type : String) (w : World) :
    (Shader.compileCheck env shader type w).filter isShaderOperation = [] ∧
    (Shader.compileCheck env shader type w).filter isDiagnostic
      = Shader.compileFailure env shader type w ∧
    statusResults (Shader.compileCheck env shader type w) = [env.glGetShaderiv w shader] := by
  unfold Shader.compileCheck Shader.compileFailure
  by_cases hs : env.glGetShaderiv w shader = 0
  · simp only [hs, if_true]
    exact ⟨rfl, rfl, rfl⟩
  · simp only [hs, if_false]
    exact ⟨rfl, rfl, rfl⟩

theorem linkCheck_filters (env : Env) (program : Nat) (type : String) (w : World) :
    (Shader.linkCheck env program type w).filter isShaderOperation = [] ∧
    (Shader.linkCheck env program type w).filter isDiagnostic
      = Shader.linkFailure env program type w ∧
    statusResults (Shader.linkCheck env program type w) = [env.glGetProgramiv w program] := by
  unfold Shader.linkCheck Shader.linkFailure
  by_cases hs : env.glGetProgramiv w program = 0
  · simp only [hs, if_true]
    exact ⟨rfl, rfl, rfl⟩
  · simp only [hs, if_false]
    exact ⟨rfl, rfl, rfl⟩

/-- C12. Shader construction never aborts on compile or link errors.  Whatever compile
and link statuses OpenGL returns, the constructor makes, after reading the sources: the
creation, sourcing and compilation of the vertex stage and its status check, the same
for the fragment stage, the same for the geometry stage exactly when a geometry path
was given, then the creation of the program, the attachment of every created stage, the
link and its status check, and the deletion of every created stage.  A status check is
the status query and, when the status returned is zero, the info-log query and one
diagnostic.  Hence the GPU operations are the sequence `Shader.operations` for every
combination of statuses, and the diagnostics are exactly one line for every stage
whose compile status was returned as zero and one for a link status returned as
zero. -/
theorem C12_shader_construction (env : Env) (vertexPath fragmentPath : String)
    (geometryPath : Option String) (w : World) :
    let src := Shader.readSources env vertexPath fragmentPath geometryPath w
    let vertex := env.glCreateShader src.2 .GL_VERTEX_SHADER
    let wv := src.2 ++ [ Event.glCreateShader .GL_VERTEX_SHADER vertex,
                         Event.glShaderSource vertex src.1.1,
                         Event.glCompileShader vertex ]
    let w1 := wv ++ Shader.compileCheck env vertex "VERTEX" wv
    let fragment := env.glCreateShader w1 .GL_FRAGMENT_SHADER
    let wf := w1 ++ [ Event.glCreateShader .GL_FRAGMENT_SHADER fragment,
                      Event.glShaderSource fragment src.1.2.1,
                      Event.glCompileShader fragment ]
    let w2 := wf ++ Shader.compileCheck env fragment "FRAGMENT" wf
    let geometry : Option Nat :=
      geometryPath.map (fun _ => env.glCreateShader w2 .GL_GEOMETRY_SHADER)
    let wg := match geometry with
      | some g => w2 ++ [ Event.glCreateShader .GL_GEOMETRY_SHADER g,
                          Event.glShaderSource g src.1.2.2,
                          Event.glCompileShader g ]
      | none => w2
    let w3 := match geometry with
      | some g => wg ++ Shader.compileCheck env g "GEOMETRY" wg
      | none => w2
    let ID := env.glCreateProgram w3
    let wp := w3 ++ [ Event.glCreateProgram ID,
                      Event.glAttachShader ID vertex,
                      Event.glAttachShader ID fragment ]
      ++ (match geometry with
          | some g => [Event.glAttachShader ID g]
          | none => [])
      ++ [Event.glLinkProgram ID]
    (Shader.new env vertexPath fragmentPath geometryPath w).1.ID = ID ∧
    (Shader.new env vertexPath fragmentPath geometryPath w).2
      = wp ++ Shader.linkCheck env ID "PROGRAM" wp
          ++ [Event.glDeleteShader vertex, Event.glDeleteShader fragment]
          ++ (match geometry with
              | some g => [Event.glDeleteShader g]
              | none => []) ∧
    ∃ d, (Shader.new env vertexPath fragmentPath geometryPath w).2 = src.2 ++ d ∧
      d.filter isShaderOperation
        = Shader.operations vertex fragment ID geometry src.1.1 src.1.2.1 src.1.2.2 ∧
      d.filter isDiagnostic
        = Shader.compileFailure env vertex "VERTEX" wv
          ++ Shader.compileFailure env fragment "FRAGMENT" wf
          ++ (match geometry with
              | some g => Shader.compileFailure env g "GEOMETRY" wg
              | none => [])
          ++ Shader.linkFailure env ID "PROGRAM" wp ∧
      statusResults d
        = [env.glGetShaderiv wv vertex, env.glGetShaderiv wf fragment]
          ++ (match geometry with
              | some g => [env.glGetShaderiv wg g]
              | none => [])
          ++ [env.glGetProgramiv wp ID] ∧
      (d.filter isDiagnostic).length = (statusResults d).count 0 := by
  intro src vertex wv w1 fragment wf w2 geometry wg w3 ID wp
  have hV : ∀ s u, Shader.checkCompileErrors env s "VERTEX" u
      = u ++ Shader.compileCheck env s "VERTEX" u :=
    fun s u => checkCompileErrors_stage env s "VERTEX" u (by decide)
  have hF : ∀ s u, Shader.checkCompileErrors env s "FRAGMENT" u
      = u ++ Shader.compileCheck env s "FRAGMENT" u :=
    fun s u => checkCompileErrors_stage env s "FRAGMENT" u (by decide)
  have hG : ∀ s u, Shader.checkCompileErrors env s "GEOMETRY" u
      = u ++ Shader.compileCheck env s "GEOMETRY" u :=
    fun s u => checkCompileErrors_stage env s "GEOMETRY" u (by decide)
  have hnew : (Shader.new env vertexPath fragmentPath geometryPath w)
      = ({ ID := ID },
         wp ++ Shader.linkCheck env ID "PROGRAM" wp
          ++ [Event.glDeleteShader vertex, Event.glDeleteShader fragment]
          ++ (match geometry with
              | some g => [Event.glDeleteShader g]
              | none => [])) := by
    cases hgp : geometryPath with
    | none =>
      simp only [Shader.new, Shader.compileGeometry, hV, hF, checkCompileErrors_program,
        wp, ID, w3, wg, geometry, w2, wf, fragment, w1, wv, vertex, src, hgp, Option.map_none',
        List.append_nil]
    | some gPath =>
      simp only [Shader.new, Shader.compileGeometry, hV, hF, hG, checkCompileErrors_program,
        wp, ID, w3, wg, geometry, w2, wf, fragment, w1, wv, vertex, src, hgp, Option.map_some']
  refine ⟨by rw [hnew], by rw [hnew], ?_⟩
  obtain ⟨cv1, cv2, cv3⟩ := compileCheck_filters env vertex "VERTEX" wv
  obtain ⟨cf1, cf2, cf3⟩ := compileCheck_filters env fragment "FRAGMENT" wf
  obtain ⟨cp1, cp2, cp3⟩ := linkCheck_filters env ID "PROGRAM" wp
  have sapp : ∀ a b : World, statusResults (a ++ b) = statusResults a ++ statusResults b :=
    fun a b => by simp [statusResults]
  have lenC : ∀ s t u, (Shader.compileFailure env s t u).length
      = List.count 0 [env.glGetShaderiv u s] := by
    intro s t u
    unfold Shader.compileFailure
    by_cases hs : env.glGetShaderiv u s = 0
    · simp [hs]
    · simp [hs, List.count_cons]
  have lenL : ∀ s t u, (Shader.linkFailure env s t u).length
      = List.count 0 [env.glGetProgramiv u s] := by
    intro s t u
    unfold Shader.linkFailure
    by_cases hs : env.glGetProgramiv u s = 0
    · simp [hs]
    · simp [hs, List.count_cons]
  rw [hnew]
  cases hg : geometry with
  | none =>
    obtain ⟨d, hd⟩ : ∃ d : World, d =
        [ Event.glCreateShader .GL_VERTEX_SHADER vertex,
          Event.glShaderSource vertex src.1.1, Event.glCompileShader vertex ]
        ++ Shader.compileCheck env vertex "VERTEX" wv
        ++ [ Event.glCreateShader .GL_FRAGMENT_SHADER fragment,
             Event.glShaderSource fragment src.1.2.1, Event.glCompileShader fragment ]
        ++ Shader.compileCheck env fragment "FRAGMENT" wf
        ++ [ Event.glCreateProgram ID, Event.glAttachShader ID vertex,
             Event.glAttachShader ID fragment, Event.glLinkProgram ID ]
        ++ Shader.linkCheck env ID "PROGRAM" wp
        ++ [Event.glDeleteShader vertex, Event.glDeleteShader fragment] := ⟨_, rfl⟩
    have h3 : d.filter isDiagnostic
        = Shader.compileFailure env vertex "VERTEX" wv
          ++ Shader.compileFailure env fragment "FRAGMENT" wf ++ []
          ++ Shader.linkFailure env ID "PROGRAM" wp := by
      rw [hd]
      simp only [List.filter_append, cv2, cf2, cp2]
      simp [isDiagnostic]
    have h4 : statusResults d
        = [env.glGetShaderiv wv vertex, env.glGetShaderiv wf fragment] ++ []
          ++ [env.glGetProgramiv wp ID] := by
      rw [hd]
      simp only [sapp, cv3, cf3, cp3]
      simp [statusResults]
    refine ⟨d, ?_, ?_, h3, h4, ?_⟩
    · rw [hd]
      simp only [wp, w3, w2, wf, w1, wv, hg, List.append_assoc, List.cons_append,
        List.nil_append, List.append_nil]
    · rw [hd]
      simp only [List.filter_append, cv1, cf1, cp1]
      simp [isShaderOperation, Shader.operations]
    · rw [h3, h4]
      simp only [List.length_append, lenC, lenL, List.count_append, List.count_cons,
        List.count_nil, List.length_nil]
      omega
  | some g =>
    obtain ⟨cg1, cg2, cg3⟩ := compileCheck_filters env g "GEOMETRY" wg
    obtain ⟨d, hd⟩ : ∃ d : World, d =
        [ Event.glCreateShader .GL_VERTEX_SHADER vertex,
          Event.glShaderSource vertex src.1.1, Event.glCompileShader vertex ]
        ++ Shader.compileCheck env vertex "VERTEX" wv
        ++ [ Event.glCreateShader .GL_FRAGMENT_SHADER fragment,
             Event.glShaderSource fragment src.1.2.1, Event.glCompileShader fragment ]
        ++ Shader.compileCheck env fragment "FRAGMENT" wf
        ++ [ Event.glCreateShader .GL_GEOMETRY_SHADER g,
             Event.glShaderSource g src.1.2.2, Event.glCompileShader g ]
        ++ Shader.compileCheck env g "GEOMETRY" wg
        ++ [ Event.glCreateProgram ID, Event.glAttachShader ID vertex,
             Event.glAttachShader ID fragment, Event.glAttachShader ID g,
             Event.glLinkProgram ID ]
        ++ Shader.linkCheck env ID "PROGRAM" wp
        ++ [Event.glDeleteShader vertex, Event.glDeleteShader fragment,
            Event.glDeleteShader g] := ⟨_, rfl⟩
    have h3 : d.filter isDiagnostic
        = Shader.compileFailure env vertex "VERTEX" wv
          ++ Shader.compileFailure env fragment "FRAGMENT" wf
          ++ Shader.compileFailure env g "GEOMETRY" wg
          ++ Shader.linkFailure env ID "PROGRAM" wp := by
      rw [hd]
      simp only [List.filter_append, cv2, cf2, cg2, cp2]
      simp [isDiagnostic]
    have h4 : statusResults d
        = [env.glGetShaderiv wv vertex, env.glGetShaderiv wf fragment]
          ++ [env.glGetShaderiv wg g] ++ [env.glGetProgramiv wp ID] := by
      rw [hd]
      simp only [sapp, cv3, cf3, cg3, cp3]
      simp [statusResults]
    refine ⟨d, ?_, ?_, h3, h4, ?_⟩
    · rw [hd]
      simp only [wp, w3, wg, w2, wf, w1, wv, hg, List.append_assoc, List.cons_append,
        List.nil_append, List.append_nil]
    · rw [hd]
      simp only [List.filter_append, cv1, cf1, cg1, cp1]
      simp [isShaderOperation, Shader.operations]
    · rw [h3, h4]
      simp only [List.length_append, lenC, lenL, List.count_append, List.count_cons,
        List.count_nil, List.length_nil]
      omega

theorem readSources_failure (env : Env) (vertexPath fragmentPath : String)
    (geometryPath : Option String) (w : World)
    (h : env.ifstream vertexPath = .openFails ∨ env.ifstream fragmentPath = .openFails) :
    (Shader.readSources env vertexPath fragmentPath geometryPath w).1 = ("", "", "") ∧
    ∃ r, (Shader.readSources env vertexPath fragmentPath geometryPath w).2 = w ++ r ∧
      r.filter isDiagnostic = [Event.cout "ERROR::SHADER::FILE_NOT_SUCCESFULLY_READ\n"] := by
  unfold Shader.readSources
  cases hv : env.ifstream vertexPath with
  | openFails =>
    simp only [List.append_assoc]
    exact ⟨trivial, _, rfl, rfl⟩
  | opened vText vOk =>
    have hf : env.ifstream fragmentPath = .openFails := by
      rcases h with h | h
      · rw [hv] at h; exact absurd h (by simp)
      · exact h
    simp only [hf, List.append_assoc]
    exact ⟨trivial, _, rfl, rfl⟩

theorem readSources_geometry_failure (env : Env) (vertexPath fragmentPath gPath : String)
    (w : World) (vText fText : String) (vOk fOk : Bool)
    (hv : env.ifstream vertexPath = .opened vText vOk)
    (hf : env.ifstream fragmentPath = .opened fText fOk)
    (hg : env.ifstream gPath = .openFails) :
    (Shader.readSources env vertexPath fragmentPath (some gPath) w).1 = (vText, fText, "") ∧
    ∃ r, (Shader.readSources env vertexPath fragmentPath (some gPath) w).2 = w ++ r ∧
      r.filter isDiagnostic = [Event.cout "ERROR::SHADER::FILE_NOT_SUCCESFULLY_READ\n"] := by
  simp only [Shader.readSources, hv, hf, hg, List.append_assoc]
  exact ⟨trivial, _, rfl, rfl⟩

/-- C13 (as stated, refuted). In `exampleEnv` the file `shaders/unreadable.vs` opens but
cannot be read.  Constructing a shader from it and `shaders/frag.fs` writes no
read-failure diagnostic, and the fragment source is the text of the fragment file, not
the empty string. -/
theorem C13_read_failure_not_reported :
    exampleEnv.ifstream "shaders/unreadable.vs" = FileRead.opened "" false ∧
    Shader.readSources exampleEnv "shaders/unreadable.vs" "shaders/frag.fs" none []
      = (("", "fragment source", ""),
         [Event.ifstream_open "shaders/unreadable.vs",
          Event.ifstream_open "shaders/frag.fs"]) ∧
    (Shader.readSources exampleEnv "shaders/unreadable.vs" "shaders/frag.fs" none
        []).2.filter isDiagnostic
      ≠ [Event.cout "ERROR::SHADER::FILE_NOT_SUCCESFULLY_READ\n"] ∧
    (Shader.readSources exampleEnv "shaders/unreadable.vs" "shaders/frag.fs" none []).1.2.1
      ≠ "" ∧
    Event.cout "ERROR::SHADER::FILE_NOT_SUCCESFULLY_READ\n"
      ∉ (Shader.new exampleEnv "shaders/unreadable.vs" "shaders/frag.fs" none []).2 ∧
    Event.glShaderSource 406 "fragment source"
      ∈ (Shader.new exampleEnv "shaders/unreadable.vs" "shaders/frag.fs" none []).2 := by
  have h : Shader.readSources exampleEnv "shaders/unreadable.vs" "shaders/frag.fs" none []
      = (("", "fragment source", ""),
         [Event.ifstream_open "shaders/unreadable.vs",
          Event.ifstream_open "shaders/frag.fs"]) := rfl
  refine ⟨rfl, h, ?_, ?_, ?_, ?_⟩
  · rw [h]
    simp [isDiagnostic]
  · rw [h]
    decide
  · decide
  · decide

/-- C13 (amended). Shader source open failure.  If the vertex file or the fragment file
cannot be opened, the constructor writes exactly one read-failure diagnostic, all three
source strings are empty (also when the vertex file itself was opened and read), and
the stages are created, compiled from the empty string, attached, linked and deleted
as usual.  If only the geometry file cannot be opened, one read-failure diagnostic is
written, the vertex and fragment stages are compiled from their file contents and the
geometry stage from the empty string. -/
theorem C13_shader_open_failure (env : Env) (vertexPath fragmentPath : String)
    (geometryPath : Option String) (w : World) :
    ((env.ifstream vertexPath = .openFails ∨ env.ifstream fragmentPath = .openFails) →
      (Shader.readSources env vertexPath fragmentPath geometryPath w).1 = ("", "", "") ∧
      (∃ r, (Shader.readSources env vertexPath fragmentPath geometryPath w).2 = w ++ r ∧
        r.filter isDiagnostic
          = [Event.cout "ERROR::SHADER::FILE_NOT_SUCCESFULLY_READ\n"]) ∧
      ∃ (vertex fragment ID : Nat) (geometry : Option Nat) (d : World),
        (Shader.new env vertexPath fragmentPath geometryPath w).2
          = (Shader.readSources env vertexPath fragmentPath geometryPath w).2 ++ d ∧
        geometry.isSome = geometryPath.isSome ∧
        d.filter isShaderOperation
          = Shader.operations vertex fragment ID geometry "" "" "") ∧
    (∀ (vText fText gPath : String) (vOk fOk : Bool),
      env.ifstream vertexPath = .opened vText vOk →
      env.ifstream fragmentPath = .opened fText fOk → geometryPath = some gPath →
      env.ifstream gPath = .openFails →
      (Shader.readSources env vertexPath fragmentPath geometryPath w).1
        = (vText, fText, "") ∧
      (∃ r, (Shader.readSources env vertexPath fragmentPath geometryPath w).2 = w ++ r ∧
        r.filter isDiagnostic
          = [Event.cout "ERROR::SHADER::FILE_NOT_SUCCESFULLY_READ\n"]) ∧
      ∃ (vertex fragment ID geometry : Nat) (d : World),
        (Shader.new env vertexPath fragmentPath geometryPath w).2
          = (Shader.readSources env vertexPath fragmentPath geometryPath w).2 ++ d ∧
        d.filter isShaderOperation
          = Shader.operations vertex fragment ID (some geometry) vText fText "") := by
  refine ⟨?_, ?_⟩
  · intro h
    obtain ⟨hsrc, hr⟩ := readSources_failure env vertexPath fragmentPath geometryPath w h
    refine ⟨hsrc, hr, ?_⟩
    obtain ⟨vertex, fragment, ID, geometry, d, hd, _, hg, hops, _⟩ :=
      Shader_new_shape env vertexPath fragmentPath geometryPath w
    rw [hsrc] at hops
    exact ⟨vertex, fragment, ID, geometry, d, hd, hg, hops⟩
  · intro vText fText gPath vOk fOk hv hf hgp hg
    subst hgp
    obtain ⟨hsrc, hr⟩ := readSources_geometry_failure env vertexPath fragmentPath gPath w
      vText fText vOk fOk hv hf hg
    refine ⟨hsrc, hr, ?_⟩
    obtain ⟨vertex, fragment, ID, geometry, d, hd, _, hgs, hops, _⟩ :=
      Shader_new_shape env vertexPath fragmentPath (some gPath) w
    rw [hsrc] at hops
    cases geometry with
    | none => simp at hgs
    | some g => exact ⟨vertex, fragment, ID, g, d, hd, hops⟩

/-- Witness for C13 (amended): in `exampleEnv` the vertex file `shaders/vert.vs` opens and
`shaders/missing.fs` does not, so all sources are empty; with both files opened and a
missing geometry file, only the geometry source is empty. -/
theorem C13_shader_open_failure_witness :
    exampleEnv.ifstream "shaders/missing.fs" = FileRead.openFails ∧
    exampleEnv.ifstream "shaders/missing.gs" = FileRead.openFails ∧
    (Shader.readSources exampleEnv "shaders/vert.vs" "shaders/missing.fs" none []).1
      = ("", "", "") ∧
    (Shader.readSources exampleEnv "shaders/vert.vs" "shaders/frag.fs"
        (some "shaders/missing.gs") []).1
      = ("vertex source", "fragment source", "") :=
  ⟨rfl, rfl,
   ((C13_shader_open_failure exampleEnv "shaders/vert.vs" "shaders/missing.fs" none []).1
      (Or.inr rfl)).1,
   ((C13_shader_open_failure exampleEnv "shaders/vert.vs" "shaders/frag.fs"
      (some "shaders/missing.gs") []).2 "vertex source" "fragment source"
      "shaders/missing.gs" true true rfl rfl rfl rfl).1⟩

/-- An example of `Shader.new`: in `exampleEnv` the fragment stage gets the name `406`,
whose compile status is returned as zero; the one diagnostic is the one for the
fragment stage. -/
theorem Shader_new_example :
    (Shader.new exampleEnv "shaders/vert.vs" "shaders/frag.fs" none []).2.filter isDiagnostic
      = [Shader.compileDiagnostic "FRAGMENT" "syntax error"] := by
  rfl

theorem processMesh_indices_eq (faces : List aiFace) :
    Model.processMesh_indices faces = (faces.map (fun face => face.mIndices)).flatten ∧
    (Model.processMesh_indices faces).length
      = (faces.map (fun face => face.mIndices.length)).sum := by
  induction faces with
  | nil => exact ⟨rfl, rfl⟩
  | cons face rest ih =>
    refine ⟨?_, ?_⟩
    · simp only [Model.processMesh_indices, List.map_cons, List.flatten_cons, ih.1]
    · simp only [Model.processMesh_indices, List.map_cons, List.sum_cons,
        List.length_append, ih.2]

theorem Draw_tail (env : Env) (self : Mesh) (shader : Shader) (w : World) :
    (Mesh.Draw env self shader w).drop (w.length + 4 * self.textures.length)
      = [ Event.glBindVertexArray self.VAO,
          Event.glDrawElements .GL_TRIANGLES self.indices.length .GL_UNSIGNED_INT,
          Event.glBindVertexArray 0 ] := by
  have hl : (w ++ Mesh.Draw_loop env shader self.textures 0 Mesh.Draw_init).length
      = w.length + 4 * self.textures.length := by
    rw [List.length_append, Draw_loop_length]
  unfold Mesh.Draw
  rw [← hl]
  exact List.drop_left _ _

/-- C14. For every raw mesh, the index list built by `processMesh` is the concatenation of
the index lists of its faces, in face order and in each face's own order, so its length
is the sum of `mNumIndices` over the faces; it is the `indices` of the `Mesh` that
`processMesh` returns (which it does for every well-formed mesh), and its size is the
element count of the one indexed draw call of `Mesh::Draw`. -/
theorem C14_processMesh_indices (mesh : aiMesh) :
    Model.processMesh_indices mesh.mFaces
      = (mesh.mFaces.map (fun face => face.mIndices)).flatten ∧
    (Model.processMesh_indices mesh.mFaces).length
      = (mesh.mFaces.map (fun face => face.mIndices.length)).sum ∧
    (∀ (env : Env) (scene : aiScene) (self : Model) (w : World) (r : Mesh × Model × World),
      Model.processMesh env mesh scene self w = some r →
      r.1.indices = (mesh.mFaces.map (fun face => face.mIndices)).flatten ∧
      ∀ (shader : Shader) (w2 : World),
        (Mesh.Draw env r.1 shader w2).drop (w2.length + 4 * r.1.textures.length)
          = [ Event.glBindVertexArray r.1.VAO,
              Event.glDrawElements .GL_TRIANGLES
                ((mesh.mFaces.map (fun face => face.mIndices)).flatten).length
                .GL_UNSIGNED_INT,
              Event.glBindVertexArray 0 ]) ∧
    (∀ (env : Env) (scene : aiScene) (self : Model) (w : World),
      aiMesh.wellFormed scene mesh →
      ∃ r, Model.processMesh env mesh scene self w = some r) := by
  refine ⟨(processMesh_indices_eq mesh.mFaces).1, (processMesh_indices_eq mesh.mFaces).2,
    ?_, fun env scene self w h => processMesh_total env mesh scene self w h⟩
  intro env scene self w r h
  have hi := (processMesh_some env mesh scene self w r h).2.1
  rw [(processMesh_indices_eq mesh.mFaces).1] at hi
  refine ⟨hi, fun shader w2 => ?_⟩
  rw [Draw_tail, hi]

/-- Witness for C14: `exampleMesh1` has the faces `[0, 0, 0]` and `[0]`; the mesh built
from it in `exampleScene` has the four indices `0, 0, 0, 0`. -/
theorem C14_processMesh_indices_witness :
    ∃ r, Model.processMesh exampleEnv exampleMesh1 exampleScene exampleModel [] = some r ∧
      r.1.indices = [0, 0, 0, 0] :=
  Exists.elim
    ((C14_processMesh_indices exampleMesh1).2.2.2 exampleEnv exampleScene exampleModel []
      ⟨rfl, rfl, rfl, rfl, fun coords hc => absurd hc (by simp [exampleMesh1]), by decide⟩)
    (fun r hr => ⟨r, hr,
      ((C14_processMesh_indices exampleMesh1).2.2.1 exampleEnv exampleScene exampleModel []
        r hr).1⟩)

theorem digitChar_value (k : Nat) (h : k < 10) : (Nat.digitChar k).toNat - 48 = k := by
  interval_cases k <;> rfl

theorem toDigitsCore_value (fuel : Nat) :
    ∀ (n : Nat) (ds : List Char), n < fuel →
      ∃ l, Nat.toDigitsCore 10 fuel n ds = l ++ ds ∧
        l.foldl (fun a c => 10 * a + (c.toNat - 48)) 0 = n := by
  induction fuel with
  | zero => intro n ds h; exact absurd h (Nat.not_lt_zero n)
  | succ fuel ih =>
    intro n ds h
    simp only [Nat.toDigitsCore]
    by_cases h0 : n / 10 = 0
    · simp only [h0, if_true]
      refine ⟨[Nat.digitChar (n % 10)], rfl, ?_⟩
      have hn : n < 10 := by omega
      simp only [List.foldl_cons, List.foldl_nil, Nat.mul_zero, Nat.zero_add,
        digitChar_value (n % 10) (Nat.mod_lt n (by omega))]
      omega
    · simp only [h0, if_false]
      obtain ⟨l, hl, hv⟩ := ih (n / 10) (Nat.digitChar (n % 10) :: ds) (by omega)
      refine ⟨l ++ [Nat.digitChar (n % 10)], ?_, ?_⟩
      · rw [hl]; simp
      · simp only [List.foldl_append, List.foldl_cons, List.foldl_nil, hv,
          digitChar_value (n % 10) (Nat.mod_lt n (by omega))]
        omega

theorem decimal_injective (a b : Nat) (h : decimal a = decimal b) : a = b := by
  have hd : Nat.toDigits 10 a = Nat.toDigits 10 b := by
    have := congrArg String.data h
    simpa [decimal, List.asString] using this
  obtain ⟨la, hla, hva⟩ := toDigitsCore_value (a + 1) a [] (Nat.lt_succ_self a)
  obtain ⟨lb, hlb, hvb⟩ := toDigitsCore_value (b + 1) b [] (Nat.lt_succ_self b)
  simp only [Nat.toDigits] at hd
  rw [hla, hlb, List.append_nil, List.append_nil] at hd
  rw [← hva, ← hvb, hd]

/-- The ninth character of a recognised type tells the four types apart, and a suffix
does not change it. -/
theorem recognised_key (type suffix : String) (h : Texture.recognised type) :
    (type ++ suffix).data[8]? = type.data[8]? ∧
    (type.data[8]? = some 'd' ↔ type = "texture_diffuse") ∧
    (type.data[8]? = some 's' ↔ type = "texture_specular") ∧
    (type.data[8]? = some 'n' ↔ type = "texture_normal") ∧
    (type.data[8]? = some 'h' ↔ type = "texture_height") := by
  rcases h with h | h | h | h <;> subst h <;>
    refine ⟨?_, ?_, ?_, ?_, ?_⟩ <;> simp [String.data_append]

theorem recognised_append_inj (t1 t2 s1 s2 : String) (h1 : Texture.recognised t1)
    (h2 : Texture.recognised t2) (h : t1 ++ s1 = t2 ++ s2) : t1 = t2 ∧ s1 = s2 := by
  have k1 := recognised_key t1 s1 h1
  have k2 := recognised_key t2 s2 h2
  have hk : t1.data[8]? = t2.data[8]? := by rw [← k1.1, ← k2.1, h]
  have ht : t1 = t2 := by
    rcases h1 with e | e | e | e
    · exact e.trans (k2.2.1.mp (hk ▸ k1.2.1.mpr e)).symm
    · exact e.trans (k2.2.2.1.mp (hk ▸ k1.2.2.1.mpr e)).symm
    · exact e.trans (k2.2.2.2.1.mp (hk ▸ k1.2.2.2.1.mpr e)).symm
    · exact e.trans (k2.2.2.2.2.mp (hk ▸ k1.2.2.2.2.mpr e)).symm
  refine ⟨ht, ?_⟩
  subst ht
  have hd := congrArg String.data h
  simp only [String.data_append] at hd
  exact String.ext (List.append_cancel_left hd)

theorem count_take_lt (ty : String) (l : List String) (i j : Nat) (hij : i < j)
    (hi : l[i]? = some ty) : (l.take i).count ty < (l.take j).count ty := by
  induction l generalizing i j with
  | nil => simp at hi
  | cons x xs ih =>
    cases j with
    | zero => exact absurd hij (Nat.not_lt_zero i)
    | succ j =>
      cases i with
      | zero =>
        simp only [List.getElem?_cons_zero, Option.some.injEq] at hi
        subst hi
        simp [List.count_cons]
      | succ i =>
        simp only [List.getElem?_cons_succ] at hi
        have := ih i j (Nat.lt_of_succ_lt_succ hij) hi
        simp only [List.take_succ_cons, List.count_cons]
        omega

theorem Draw_name_ne_of_lt (ts : List Texture) (i j : Nat) (t u : Texture) (hij : i < j)
    (hi : ts[i]? = some t) (_hj : ts[j]? = some u) (ht : Texture.recognised t.type)
    (hu : Texture.recognised u.type) : Mesh.Draw_name ts i t ≠ Mesh.Draw_name ts j u := by
  intro h
  unfold Mesh.Draw_name at h
  rw [Draw_number_recognised _ _ ht, Draw_number_recognised _ _ hu] at h
  obtain ⟨hty, hnum⟩ := recognised_append_inj _ _ _ _ ht hu h
  have hc := decimal_injective _ _ hnum
  have hi2 : (ts.map (fun x => x.type))[i]? = some t.type := by
    rw [List.getElem?_map, hi]; rfl
  have hlt := count_take_lt t.type (ts.map (fun x => x.type)) i j hij hi2
  rw [← List.map_take, ← List.map_take] at hlt
  rw [← hty] at hc
  omega

theorem Draw_number_unrecognised (type : String) (c : DrawCounters)
    (h : ¬ Texture.recognised type) : (Mesh.Draw_number type c).1 = "" := by
  unfold Texture.recognised at h
  simp only [not_or] at h
  simp [Mesh.Draw_number, h.1, h.2.1, h.2.2.1, h.2.2.2]

/-- C15. Uniform names assigned by `Mesh::Draw`.  In a texture list all of whose types are
among `texture_diffuse`, `texture_specular`, `texture_normal`, `texture_height`, the
names looked up for two different positions are different strings.  A texture whose
type is none of the four is looked up under its bare type string, so two textures of
the same unrecognised type are looked up under the same name. -/
theorem C15_uniform_names_injective (env : Env) (self : Mesh) (shader : Shader) (w : World) :
    ((∀ t ∈ self.textures, Texture.recognised t.type) →
      ∀ (i j : Nat) (t u : Texture), i ≠ j → self.textures[i]? = some t →
        self.textures[j]? = some u →
        ∃ a b, (Mesh.Draw env self shader w)[w.length + (4 * i + 1)]?
            = some (Event.glGetUniformLocation shader.ID a) ∧
          (Mesh.Draw env self shader w)[w.length + (4 * j + 1)]?
            = some (Event.glGetUniformLocation shader.ID b) ∧
          a ≠ b) ∧
    (∀ (i : Nat) (t : Texture), self.textures[i]? = some t → ¬ Texture.recognised t.type →
      (Mesh.Draw env self shader w)[w.length + (4 * i + 1)]?
        = some (Event.glGetUniformLocation shader.ID t.type)) ∧
    (∀ (i j : Nat) (t u : Texture), self.textures[i]? = some t →
      self.textures[j]? = some u → ¬ Texture.recognised t.type → t.type = u.type →
      (Mesh.Draw env self shader w)[w.length + (4 * i + 1)]?
        = (Mesh.Draw env self shader w)[w.length + (4 * j + 1)]?) := by
  have hlen : ∀ (i : Nat) (t : Texture), self.textures[i]? = some t →
      i < self.textures.length := by
    intro i t h
    rcases Nat.lt_or_ge i self.textures.length with hlt | hge
    · exact hlt
    · rw [List.getElem?_eq_none hge] at h
      exact absurd h (by simp)
  have hname : ∀ (i : Nat) (t : Texture), self.textures[i]? = some t →
      (Mesh.Draw env self shader w)[w.length + (4 * i + 1)]?
        = some (Event.glGetUniformLocation shader.ID (Mesh.Draw_name self.textures i t)) := by
    intro i t h
    have hi := hlen i t h
    rw [Draw_get env self shader w (4 * i + 1) (by omega)]
    exact (Draw_loop_at env shader self.textures 0 Mesh.Draw_init i t h).2.1
  have hbare : ∀ (i : Nat) (t : Texture), ¬ Texture.recognised t.type →
      Mesh.Draw_name self.textures i t = t.type := by
    intro i t hn
    unfold Mesh.Draw_name
    rw [Draw_number_unrecognised _ _ hn]
    exact String.append_empty _
  refine ⟨?_, ?_, ?_⟩
  · intro hall i j t u hij hi hj
    have ht := hall t (List.getElem?_mem hi)
    have hu := hall u (List.getElem?_mem hj)
    refine ⟨_, _, hname i t hi, hname j u hj, ?_⟩
    rcases Nat.lt_or_gt_of_ne hij with h | h
    · exact Draw_name_ne_of_lt self.textures i j t u h hi hj ht hu
    · exact (Draw_name_ne_of_lt self.textures j i u t h hj hi hu ht).symm
  · intro i t hi hn
    rw [hname i t hi, hbare i t hn]
  · intro i j t u hi hj hn hty
    rw [hname i t hi, hname j u hj, hbare i t hn, hbare j u (hty ▸ hn), hty]

/-- Witness for C15: in `exampleTextures` followed by a second `texture_emissive` map,
positions 3 and 5 are both looked up as `texture_emissive`; in a list of two diffuse
maps the two names differ. -/
theorem C15_uniform_names_injective_witness :
    (Mesh.Draw exampleEnv
        { vertices := [], indices := [],
          textures := exampleTextures ++
            [{ id := 16, type := "texture_emissive", path := "f.png" }],
          VAO := 1, VBO := 2, EBO := 3 } { ID := 7 } [])[0 + (4 * 3 + 1)]?
      = (Mesh.Draw exampleEnv
        { vertices := [], indices := [],
          textures := exampleTextures ++
            [{ id := 16, type := "texture_emissive", path := "f.png" }],
          VAO := 1, VBO := 2, EBO := 3 } { ID := 7 } [])[0 + (4 * 5 + 1)]? ∧
    ∃ a b,
      (Mesh.Draw exampleEnv
          { vertices := [], indices := [], textures := exampleTextures.take 2,
            VAO := 1, VBO := 2, EBO := 3 } { ID := 7 } [])[0 + (4 * 0 + 1)]?
        = some (Event.glGetUniformLocation 7 a) ∧
      (Mesh.Draw exampleEnv
          { vertices := [], indices := [], textures := exampleTextures.take 2,
            VAO := 1, VBO := 2, EBO := 3 } { ID := 7 } [])[0 + (4 * 1 + 1)]?
        = some (Event.glGetUniformLocation 7 b) ∧
      a ≠ b :=
  ⟨(C15_uniform_names_injective exampleEnv
      { vertices := [], indices := [],
        textures := exampleTextures ++
          [{ id := 16, type := "texture_emissive", path := "f.png" }],
        VAO := 1, VBO := 2, EBO := 3 } { ID := 7 } []).2.2 3 5
      { id := 14, type := "texture_emissive", path := "d.png" }
      { id := 16, type := "texture_emissive", path := "f.png" } rfl rfl
      (by simp [Texture.recognised]) rfl,
   (C15_uniform_names_injective exampleEnv
      { vertices := [], indices := [], textures := exampleTextures.take 2,
        VAO := 1, VBO := 2, EBO := 3 } { ID := 7 } []).1
      (by simp [exampleTextures, Texture.recognised]) 0 1
      { id := 11, type := "texture_diffuse", path := "a.png" }
      { id := 12, type := "texture_diffuse", path := "b.png" } (by decide) rfl rfl⟩

theorem steps_append (env : Env) (a b : List (String × String))
    (s : List Texture × Model × World) :
    Model.loadMaterialTextures_steps env (a ++ b) s
      = Model.loadMaterialTextures_steps env b (Model.loadMaterialTextures_steps env a s) := by
  simp only [Model.loadMaterialTextures_steps, List.foldl_append]

theorem steps_cons (env : Env) (c : String × String) (rest : List (String × String))
    (s : List Texture × Model × World) :
    Model.loadMaterialTextures_steps env (c :: rest) s
      = Model.loadMaterialTextures_steps env rest
          (Model.loadMaterialTextures_body env c.1 s c.2) := rfl

theorem loadMaterialTextures_eq_steps (env : Env) (mat : aiMaterial) (type : aiTextureType)
    (typeName : String) (self : Model) (w : World) :
    Model.loadMaterialTextures env mat type typeName self w
      = Model.loadMaterialTextures_steps env
          ((mat.GetTextures type).map (fun p => (typeName, p))) ([], self, w) := by
  simp only [Model.loadMaterialTextures, Model.loadMaterialTextures_steps, List.foldl_map]

theorem body_mono (env : Env) (typeName str : String) (s : List Texture × Model × World)
    (t : Texture) :
    (t ∈ s.1 → t ∈ (Model.loadMaterialTextures_body env typeName s str).1) ∧
    (t ∈ s.2.1.textures_loaded →
      t ∈ (Model.loadMaterialTextures_body env typeName s str).2.1.textures_loaded) := by
  unfold Model.loadMaterialTextures_body
  cases Model.loadMaterialTextures_find str s.2.1.textures_loaded with
  | some e => exact ⟨fun h => List.mem_append_left _ h, fun h => h⟩
  | none => exact ⟨fun h => List.mem_append_left _ h, fun h => List.mem_append_left _ h⟩

theorem steps_mono (env : Env) (steps : List (String × String))
    (s : List Texture × Model × World) (t : Texture) :
    (t ∈ s.1 → t ∈ (Model.loadMaterialTextures_steps env steps s).1) ∧
    (t ∈ s.2.1.textures_loaded →
      t ∈ (Model.loadMaterialTextures_steps env steps s).2.1.textures_loaded) := by
  induction steps generalizing s with
  | nil => exact ⟨fun h => h, fun h => h⟩
  | cons c rest ih =>
    rw [steps_cons]
    have hb := body_mono env c.1 c.2 s t
    have hr := ih (Model.loadMaterialTextures_body env c.1 s c.2)
    exact ⟨fun h => hr.1 (hb.1 h), fun h => hr.2 (hb.2 h)⟩

theorem body_cache_new (env : Env) (typeName str : String)
    (s : List Texture × Model × World) (t : Texture)
    (h : t ∈ (Model.loadMaterialTextures_body env typeName s str).2.1.textures_loaded) :
    t ∈ s.2.1.textures_loaded ∨ (t.path = str ∧ t.type = typeName) := by
  unfold Model.loadMaterialTextures_body at h
  cases hf : Model.loadMaterialTextures_find str s.2.1.textures_loaded with
  | some e =>
    simp only [hf] at h
    exact Or.inl h
  | none =>
    simp only [hf, List.mem_append, List.mem_singleton] at h
    rcases h with h | h
    · exact Or.inl h
    · subst h
      exact Or.inr ⟨rfl, rfl⟩

theorem steps_no_path (env : Env) (str : String) (steps : List (String × String))
    (s : List Texture × Model × World)
    (hs : ∀ t ∈ s.2.1.textures_loaded, t.path ≠ str) (hsteps : ∀ c ∈ steps, c.2 ≠ str) :
    ∀ t ∈ (Model.loadMaterialTextures_steps env steps s).2.1.textures_loaded,
      t.path ≠ str := by
  induction steps generalizing s with
  | nil => exact hs
  | cons c rest ih =>
    rw [steps_cons]
    apply ih
    · intro t ht
      rcases body_cache_new env c.1 c.2 s t ht with h | ⟨h, _⟩
      · exact hs t h
      · rw [h]
        exact hsteps c (List.mem_cons_self _ _)
    · exact fun d hd => hsteps d (List.mem_cons_of_mem _ hd)

theorem body_loads (env : Env) (typeName str : String) (s : List Texture × Model × World)
    (hs : ∀ t ∈ s.2.1.textures_loaded, t.path ≠ str) :
    ∃ t ∈ (Model.loadMaterialTextures_body env typeName s str).2.1.textures_loaded,
      t.path = str ∧ t.type = typeName := by
  have hf := (find_eq_none_iff str _).mpr hs
  simp only [Model.loadMaterialTextures_body, hf]
  exact ⟨_, List.mem_append_right _ (List.mem_singleton_self _), rfl, rfl⟩

theorem body_hit (env : Env) (typeName str : String) (textures : List Texture)
    (self : Model) (w : World) (e : Texture)
    (hnd : (self.textures_loaded.map (fun t => t.path)).Nodup)
    (he : e ∈ self.textures_loaded) (hp : e.path = str) :
    Model.loadMaterialTextures_body env typeName (textures, self, w) str
      = (textures ++ [e], self, w) := by
  have hf := find_of_nodup str _ e hnd he hp
  simp only [Model.loadMaterialTextures_body, hf]

/-- After a call with type name `A` on paths that include `str`, the cache holds an entry
for `str`; it has type `A` if every entry for `str` that was there before had. -/
theorem call_caches (env : Env) (A str : String) (paths : List String)
    (s : List Texture × Model × World) (hmem : str ∈ paths)
    (hs : ∀ t ∈ s.2.1.textures_loaded, t.path = str → t.type = A) :
    ∃ t ∈ (Model.loadMaterialTextures_steps env (paths.map (fun p => (A, p)))
        s).2.1.textures_loaded, t.path = str ∧ t.type = A := by
  induction paths generalizing s with
  | nil => simp at hmem
  | cons p rest ih =>
    rw [List.map_cons, steps_cons]
    have hs2 : ∀ t ∈ (Model.loadMaterialTextures_body env A s p).2.1.textures_loaded,
        t.path = str → t.type = A := by
      intro t ht hp
      rcases body_cache_new env A p s t ht with h | ⟨_, h⟩
      · exact hs t h hp
      · exact h
    by_cases hps : p = str
    · subst hps
      have hex : ∃ t ∈ (Model.loadMaterialTextures_body env A s p).2.1.textures_loaded,
          t.path = p := by
        by_cases hin : ∃ t ∈ s.2.1.textures_loaded, t.path = p
        · obtain ⟨t, ht, htp⟩ := hin
          exact ⟨t, (body_mono env A p s t).2 ht, htp⟩
        · obtain ⟨t, ht, htp, _⟩ := body_loads env A p s
            (fun t ht htp => hin ⟨t, ht, htp⟩)
          exact ⟨t, ht, htp⟩
      obtain ⟨t, ht, htp⟩ := hex
      exact ⟨t, (steps_mono env _ _ t).2 ht, htp, hs2 t ht htp⟩
    · have hmem2 : str ∈ rest := by
        rcases List.mem_cons.mp hmem with h | h
        · exact absurd h.symm hps
        · exact h
      exact ih _ hmem2 hs2

/-- A cached entry for `str` is part of the result of every call whose paths include
`str`. -/
theorem call_returns_cached (env : Env) (w0 : World) (B str : String) (paths : List String)
    (s : List Texture × Model × World) (e : Texture) (hmem : str ∈ paths)
    (hinv : CacheInv w0 s.2.1 s.2.2) (he : e ∈ s.2.1.textures_loaded) (hp : e.path = str) :
    e ∈ (Model.loadMaterialTextures_steps env (paths.map (fun p => (B, p))) s).1 := by
  induction paths generalizing s with
  | nil => simp at hmem
  | cons p rest ih =>
    rw [List.map_cons, steps_cons]
    by_cases hps : p = str
    · subst hps
      obtain ⟨_, _, _, hnd⟩ := hinv
      have hb := body_hit env B p s.1 s.2.1 s.2.2 e hnd he hp
      apply (steps_mono env _ _ e).1
      show e ∈ (Model.loadMaterialTextures_body env B (s.1, s.2.1, s.2.2) p).1
      rw [hb]
      exact List.mem_append_right _ (List.mem_singleton_self _)
    · have hmem2 : str ∈ rest := by
        rcases List.mem_cons.mp hmem with h | h
        · exact absurd h.symm hps
        · exact h
      exact ih _ hmem2 (CacheInv_body env w0 B p s hinv) ((body_mono env B p s e).2 he)

theorem CacheInv_fresh (w0 : World) (meshes : List Mesh) (directory : String) (gamma : Bool) :
    CacheInv w0 { textures_loaded := [], meshes := meshes, directory := directory,
                  gammaCorrection := gamma } w0 :=
  ⟨[], by simp, by simp [TextureFromFile_calls], by simp⟩

/-- C16. On a cache hit the cached entry is returned with the type tag of its first load,
whatever the `typeName` of the current call.  For one iteration: on a fresh model, if
`str` was first loaded by an iteration with type name `A`, a later iteration for `str`
with any type name `B` pushes the cached entry, whose type is `A`, and changes nothing
else.  For whole calls: if `str` is among the textures of a first call with type name
`A` and of a later call with type name `B`, the result of the later call contains a
texture with path `str` and type `A`. -/
theorem C16_cache_hit_keeps_type (env : Env) (meshes : List Mesh) (directory : String)
    (gamma : Bool) (w0 : World) (A B str : String) :
    (∀ (prior1 prior2 : List (String × String)) (textures : List Texture),
      (∀ c ∈ prior1, c.2 ≠ str) →
      ∃ t ∈ (Model.loadMaterialTextures_steps env (prior1 ++ (A, str) :: prior2)
          ([], { textures_loaded := [], meshes := meshes, directory := directory,
                 gammaCorrection := gamma }, w0)).2.1.textures_loaded,
        t.type = A ∧ t.path = str ∧
        Model.loadMaterialTextures_body env B
          (textures,
           (Model.loadMaterialTextures_steps env (prior1 ++ (A, str) :: prior2)
             ([], { textures_loaded := [], meshes := meshes, directory := directory,
                    gammaCorrection := gamma }, w0)).2.1,
           (Model.loadMaterialTextures_steps env (prior1 ++ (A, str) :: prior2)
             ([], { textures_loaded := [], meshes := meshes, directory := directory,
                    gammaCorrection := gamma }, w0)).2.2) str
        = (textures ++ [t],
           (Model.loadMaterialTextures_steps env (prior1 ++ (A, str) :: prior2)
             ([], { textures_loaded := [], meshes := meshes, directory := directory,
                    gammaCorrection := gamma }, w0)).2.1,
           (Model.loadMaterialTextures_steps env (prior1 ++ (A, str) :: prior2)
             ([], { textures_loaded := [], meshes := meshes, directory := directory,
                    gammaCorrection := gamma }, w0)).2.2)) ∧
    (∀ (mat1 mat2 : aiMaterial) (type1 type2 : aiTextureType),
      str ∈ mat1.GetTextures type1 → str ∈ mat2.GetTextures type2 →
      ∃ t ∈ (Model.loadMaterialTextures env mat2 type2 B
          (Model.loadMaterialTextures env mat1 type1 A
            { textures_loaded := [], meshes := meshes, directory := directory,
              gammaCorrection := gamma } w0).2.1
          (Model.loadMaterialTextures env mat1 type1 A
            { textures_loaded := [], meshes := meshes, directory := directory,
              gammaCorrection := gamma } w0).2.2).1,
        t.path = str ∧ t.type = A) := by
  constructor
  · intro prior1 prior2 textures hfirst
    have hinv := CacheInv_steps env w0 (prior1 ++ (A, str) :: prior2)
      ([], { textures_loaded := [], meshes := meshes, directory := directory,
             gammaCorrection := gamma }, w0) (CacheInv_fresh w0 meshes directory gamma)
    obtain ⟨_, _, _, hnd⟩ := hinv
    rw [steps_append, steps_cons] at hnd ⊢
    have hno := steps_no_path env str prior1
      ([], { textures_loaded := [], meshes := meshes, directory := directory,
             gammaCorrection := gamma }, w0) (by simp) hfirst
    obtain ⟨t, ht, htp, htt⟩ := body_loads env A str _ hno
    have ht2 := (steps_mono env prior2 _ t).2 ht
    exact ⟨t, ht2, htt, htp, body_hit env B str textures _ _ t hnd ht2 htp⟩
  · intro mat1 mat2 type1 type2 h1 h2
    rw [loadMaterialTextures_eq_steps env mat2, loadMaterialTextures_eq_steps env mat1]
    obtain ⟨e, he, hep, het⟩ := call_caches env A str (mat1.GetTextures type1)
      ([], { textures_loaded := [], meshes := meshes, directory := directory,
             gammaCorrection := gamma }, w0) h1 (by simp)
    have hinv := CacheInv_steps env w0 ((mat1.GetTextures type1).map (fun p => (A, p)))
      ([], { textures_loaded := [], meshes := meshes, directory := directory,
             gammaCorrection := gamma }, w0) (CacheInv_fresh w0 meshes directory gamma)
    exact ⟨e, call_returns_cached env w0 B str (mat2.GetTextures type2) _ e h2 hinv he hep,
      hep, het⟩

/-- Witness for C16: `exampleSharedMaterial` names `rgb.png` as diffuse and as specular
texture; loading the diffuse textures first, the specular call returns a texture of type
`texture_diffuse`. -/
theorem C16_cache_hit_keeps_type_witness :
    ∃ t ∈ (Model.loadMaterialTextures exampleEnv exampleSharedMaterial
        .aiTextureType_SPECULAR "texture_specular"
        (Model.loadMaterialTextures exampleEnv exampleSharedMaterial
          .aiTextureType_DIFFUSE "texture_diffuse" exampleModel []).2.1
        (Model.loadMaterialTextures exampleEnv exampleSharedMaterial
          .aiTextureType_DIFFUSE "texture_diffuse" exampleModel []).2.2).1,
      t.path = "rgb.png" ∧ t.type = "texture_diffuse" :=
  (C16_cache_hit_keeps_type exampleEnv [] "res" false [] "texture_diffuse"
    "texture_specular" "rgb.png").2 exampleSharedMaterial exampleSharedMaterial
    .aiTextureType_DIFFUSE .aiTextureType_SPECULAR
    (List.mem_singleton_self _) (List.mem_singleton_self _)

theorem find_last_of_aux_absent (c : Char) (l : List Char) (i : Nat) (last : Option Nat)
    (h : c ∉ l) : find_last_of_aux c l i last = last := by
  induction l generalizing i last with
  | nil => rfl
  | cons x xs ih =>
    have hx : x ≠ c := fun e => h (e ▸ List.mem_cons_self _ _)
    simp only [find_last_of_aux, hx, if_false]
    exact ih _ _ (fun hm => h (List.mem_cons_of_mem _ hm))

theorem find_last_of_aux_split (c : Char) (pre post : List Char) (i : Nat)
    (last : Option Nat) (h : c ∉ post) :
    find_last_of_aux c (pre ++ c :: post) i last = some (i + pre.length) := by
  induction pre generalizing i last with
  | nil =>
    simp only [List.nil_append, find_last_of_aux, if_true, List.length_nil, Nat.add_zero]
    exact find_last_of_aux_absent c post _ _ h
  | cons x xs ih =>
    simp only [List.cons_append, find_last_of_aux, List.length_cons]
    exact (ih (i + 1) (if x = c then some i else last)).trans (by congr 1; omega)

theorem last_split (c : Char) (l : List Char) (h : c ∈ l) :
    ∃ pre post, l = pre ++ c :: post ∧ c ∉ post := by
  induction l with
  | nil => simp at h
  | cons x xs ih =>
    by_cases hxs : c ∈ xs
    · obtain ⟨pre, post, he, hp⟩ := ih hxs
      exact ⟨x :: pre, post, by rw [he]; rfl, hp⟩
    · rcases List.mem_cons.mp h with hx | hx
      · exact ⟨[], xs, by rw [hx]; rfl, hxs⟩
      · exact absurd hx hxs

theorem directory_of_split (path pre post : String) (h : path = pre ++ "/" ++ post)
    (hp : '/' ∉ post.data) : substr0 path (find_last_of path '/') = pre := by
  have hd : path.data = pre.data ++ '/' :: post.data := by
    rw [h]
    simp only [String.data_append, List.append_assoc]
    rfl
  unfold find_last_of
  rw [hd, find_last_of_aux_split '/' pre.data post.data 0 none hp]
  simp only [substr0, hd, Nat.zero_add, List.take_left']

theorem processMesh_textures_directory (env : Env) (material : aiMaterial) (self : Model)
    (w : World) :
    (Model.processMesh_textures env material self w).2.1.directory = self.directory := by
  simp only [Model.processMesh_textures, loadMaterialTextures_preserves]

theorem processMesh_directory (env : Env) (mesh : aiMesh) (scene : aiScene) (self : Model)
    (w : World) (r : Mesh × Model × World)
    (h : Model.processMesh env mesh scene self w = some r) :
    r.2.1.directory = self.directory := by
  unfold Model.processMesh at h
  cases hvs : Model.processMesh_vertices mesh mesh.mNumVertices 0 with
  | none => simp [hvs] at h
  | some vs =>
    cases hmat : scene.mMaterials[mesh.mMaterialIndex]? with
    | none => simp [hvs, hmat] at h
    | some material =>
      simp only [hvs, hmat, Option.some.injEq] at h
      subst h
      exact processMesh_textures_directory env material self w

theorem processNode_meshes_directory (env : Env) (scene : aiScene) (refs : List Nat)
    (self : Model) (w : World) (r : Model × World)
    (h : Model.processNode_meshes env scene refs self w = some r) :
    r.1.directory = self.directory := by
  induction refs generalizing self w with
  | nil =>
    simp only [Model.processNode_meshes, Option.some.injEq] at h
    subst h
    rfl
  | cons k rest ih =>
    simp only [Model.processNode_meshes] at h
    cases hk : scene.mMeshes[k]? with
    | none => simp [hk] at h
    | some mesh =>
      cases hpm : Model.processMesh env mesh scene self w with
      | none => simp [hk, hpm] at h
      | some pr =>
        simp only [hk, hpm] at h
        rw [ih _ _ h]
        exact processMesh_directory env mesh scene self w pr hpm

theorem loadModel_complete (env : Env) (path : String) (self : Model) (w : World)
    (scene : aiScene) (root : aiNode) (hs : (env.ReadFile path).scene = some scene)
    (hf : scene.mFlags &&& AI_SCENE_FLAGS_INCOMPLETE = 0) (hr : scene.mRootNode = some root) :
    Model.loadModel env path self w =
      Model.processNode env scene root
        { self with directory := substr0 path (find_last_of path '/') } w := by
  unfold Model.loadModel
  simp only [hs, hr]
  rw [if_neg (not_not.mpr hf)]

/-- C17. Directory derivation and texture path resolution.  The directory that
`loadModel(path)` computes is the part of `path` strictly before its last `'/'`:
whenever `path` is `pre`, `"/"`, `post` with no `'/'` in `post`, it is `pre`; if `path`
contains a `'/'` such a `post` exists, so directory, `"/"` and the rest of `path` put
together are `path`; if `path` contains no `'/'` the directory is the whole `path`.
When the importer returns a complete scene with a root node and every mesh reference
of the node tree denotes a well-formed mesh, `loadModel(path)` returns, and the model
it returns has that value as its `directory`, whatever the directory was before; and
whenever `loadModel(path)` returns on such a scene, the `directory` is that value.
`TextureFromFile(p, directory)` calls `stbi_load` exactly once, on `directory + "/" + p`. -/
theorem C17_directory_and_texture_path (env : Env) (path : String) :
    (∀ pre post : String, path = pre ++ "/" ++ post → '/' ∉ post.data →
      substr0 path (find_last_of path '/') = pre) ∧
    ('/' ∈ path.data → ∃ post : String, '/' ∉ post.data ∧
      substr0 path (find_last_of path '/') ++ "/" ++ post = path) ∧
    ('/' ∉ path.data → substr0 path (find_last_of path '/') = path) ∧
    (∀ (self : Model) (w : World) (scene : aiScene) (root : aiNode),
      (env.ReadFile path).scene = some scene →
      scene.mFlags &&& AI_SCENE_FLAGS_INCOMPLETE = 0 → scene.mRootNode = some root →
      aiScene.refsWellFormed scene (aiNode.preorder root) →
      ∃ r, Model.loadModel env path self w = some r ∧
        r.1.directory = substr0 path (find_last_of path '/')) ∧
    (∀ (self : Model) (w : World) (scene : aiScene) (root : aiNode) (r : Model × World),
      (env.ReadFile path).scene = some scene →
      scene.mFlags &&& AI_SCENE_FLAGS_INCOMPLETE = 0 → scene.mRootNode = some root →
      Model.loadModel env path self w = some r →
      r.1.directory = substr0 path (find_last_of path '/')) ∧
    (∀ (p directory : String) (w : World),
      ∃ d, (TextureFromFile env p directory w).2 = w ++ d ∧
        stbi_load_calls d = [directory ++ "/" ++ p]) := by
  refine ⟨fun pre post h hp => directory_of_split path pre post h hp, ?_, ?_, ?_, ?_, ?_⟩
  · intro h
    obtain ⟨pre, post, he, hp⟩ := last_split '/' path.data h
    have hpath : path = (⟨pre⟩ : String) ++ "/" ++ ⟨post⟩ := by
      apply String.ext
      rw [he]
      simp only [String.data_append, List.append_assoc]
      rfl
    refine ⟨⟨post⟩, hp, ?_⟩
    rw [directory_of_split path ⟨pre⟩ ⟨post⟩ hpath hp]
    exact hpath.symm
  · intro h
    unfold find_last_of
    rw [find_last_of_aux_absent '/' path.data 0 none h]
    rfl
  · intro self w scene root hs hf hr hwf
    rw [loadModel_complete env path self w scene root hs hf hr, processNode_eq_meshes]
    obtain ⟨r, h⟩ := processNode_meshes_total env scene (aiNode.preorder root)
      { self with directory := substr0 path (find_last_of path '/') } w hwf
    exact ⟨r, h, processNode_meshes_directory env scene _ _ w r h⟩
  · intro self w scene root r hs hf hr h
    rw [loadModel_complete env path self w scene root hs hf hr, processNode_eq_meshes] at h
    exact processNode_meshes_directory env scene _ _ w r h
  · intro p directory w
    simp only [TextureFromFile]
    split
    · simp only [List.append_assoc]
      exact ⟨_, rfl, by simp [stbi_load_calls, List.filterMap]⟩
    · simp only [List.append_assoc]
      exact ⟨_, rfl, by simp [stbi_load_calls, List.filterMap]⟩

/-- Witness for C17: the constructor `Model("res/model.obj")` in `exampleEnv` starts from
the empty directory, returns, and leaves `directory = "res"`; for `a/b/c.obj` the
directory is `a/b`, and for `model.obj` it is `model.obj`. -/
theorem C17_directory_and_texture_path_witness :
    (∃ r, Model.new exampleEnv "res/model.obj" false [] = some r ∧
      r.1.directory = "res") ∧
    substr0 "a/b/c.obj" (find_last_of "a/b/c.obj" '/') = "a/b" ∧
    substr0 "model.obj" (find_last_of "model.obj" '/') = "model.obj" :=
  ⟨(C17_directory_and_texture_path exampleEnv "res/model.obj").2.2.2.1
      { textures_loaded := [], meshes := [], directory := "", gammaCorrection := false } []
      exampleScene exampleNode rfl rfl rfl exampleScene_refsWellFormed,
   (C17_directory_and_texture_path exampleEnv "a/b/c.obj").1 "a/b" "c.obj" rfl (by decide),
   (C17_directory_and_texture_path exampleEnv "model.obj").2.2.1 (by decide)⟩

theorem inversesqrt_four : inversesqrt 4 = 1 / 2 := by
  have h : Rat.sqrt (2 * 2) = |2| := Rat.sqrt_eq 2
  have h4 : (2 : ℚ) * 2 = 4 := by norm_num
  rw [h4] at h
  rw [inversesqrt, h]
  norm_num

theorem normalize_two_x : vec3.normalize { x := 2, y := 0, z := 0 } = { x := 1, y := 0, z := 0 } := by
  have hd : vec3.dot { x := 2, y := 0, z := 0 } { x := 2, y := 0, z := 0 } = 4 := by
    norm_num [vec3.dot]
  simp only [vec3.normalize, hd, inversesqrt_four]
  norm_num

theorem normalize_two_y : vec3.normalize { x := 0, y := 2, z := 0 } = { x := 0, y := 1, z := 0 } := by
  have hd : vec3.dot { x := 0, y := 2, z := 0 } { x := 0, y := 2, z := 0 } = 4 := by
    norm_num [vec3.dot]
  simp only [vec3.normalize, hd, inversesqrt_four]
  norm_num

theorem renderQuad_triangle1_raw :
    renderQuad_triangle1.det = 1 ∧ renderQuad_triangle1.f = 1 ∧
    renderQuad_triangle1.tangentRaw = { x := 2, y := 0, z := 0 } ∧
    renderQuad_triangle1.bitangentRaw = { x := 0, y := 2, z := 0 } := by
  refine ⟨?_, ?_, ?_, ?_⟩ <;>
    norm_num [renderQuad_triangle1, renderQuad_tangentBlock, vec3.sub, vec2.sub,
      renderQuad_pos1, renderQuad_pos2, renderQuad_pos3, renderQuad_uv1, renderQuad_uv2,
      renderQuad_uv3]

theorem renderQuad_triangle2_raw :
    renderQuad_triangle2.det = 1 ∧ renderQuad_triangle2.f = 1 ∧
    renderQuad_triangle2.tangentRaw = { x := 2, y := 0, z := 0 } ∧
    renderQuad_triangle2.bitangentRaw = { x := 0, y := 2, z := 0 } := by
  refine ⟨?_, ?_, ?_, ?_⟩ <;>
    norm_num [renderQuad_triangle2, renderQuad_tangentBlock, vec3.sub, vec2.sub,
      renderQuad_pos1, renderQuad_pos3, renderQuad_pos4, renderQuad_uv1, renderQuad_uv3,
      renderQuad_uv4]

theorem renderQuad_tangent_eq (t : TangentSpace) (edge1 edge2 : vec3) (d1 d2 : vec2)
    (h : t = renderQuad_tangentBlock edge1 edge2 d1 d2) :
    t.tangent = vec3.normalize t.tangentRaw ∧ t.bitangent = vec3.normalize t.bitangentRaw := by
  subst h
  exact ⟨rfl, rfl⟩

/-- C18. Tangent-space computation of `renderQuad` in exact rational arithmetic: for both
triangles the UV determinant is `1` (so `f = 1 / 1 = 1` and nothing is divided by zero),
the tangent before normalisation is `(2, 0, 0)` and the bitangent `(0, 2, 0)`; both
triangles get the normalised tangent `(1, 0, 0)` and bitangent `(0, 1, 0)`, which are
orthogonal to each other and to the normal `(0, 0, 1)`, and tangent x bitangent is the
normal. -/
theorem C18_renderQuad_tangent_space :
    (renderQuad_triangle1.det = 1 ∧ renderQuad_triangle2.det = 1) ∧
    (renderQuad_triangle1.f = 1 ∧ renderQuad_triangle2.f = 1) ∧
    (renderQuad_triangle1.tangentRaw = { x := 2, y := 0, z := 0 } ∧
      renderQuad_triangle2.tangentRaw = { x := 2, y := 0, z := 0 }) ∧
    (renderQuad_triangle1.bitangentRaw = { x := 0, y := 2, z := 0 } ∧
      renderQuad_triangle2.bitangentRaw = { x := 0, y := 2, z := 0 }) ∧
    (renderQuad_triangle1.tangent = { x := 1, y := 0, z := 0 } ∧
      renderQuad_triangle2.tangent = { x := 1, y := 0, z := 0 }) ∧
    (renderQuad_triangle1.bitangent = { x := 0, y := 1, z := 0 } ∧
      renderQuad_triangle2.bitangent = { x := 0, y := 1, z := 0 }) ∧
    vec3.dot renderQuad_triangle1.tangent renderQuad_triangle1.bitangent = 0 ∧
    vec3.dot renderQuad_triangle1.tangent renderQuad_nm = 0 ∧
    vec3.dot renderQuad_triangle1.bitangent renderQuad_nm = 0 ∧
    vec3.cross renderQuad_triangle1.tangent renderQuad_triangle1.bitangent = renderQuad_nm ∧
    renderQuad_nm = { x := 0, y := 0, z := 1 } := by
  obtain ⟨d1, f1, t1, b1⟩ := renderQuad_triangle1_raw
  obtain ⟨d2, f2, t2, b2⟩ := renderQuad_triangle2_raw
  have n1 := renderQuad_tangent_eq renderQuad_triangle1 _ _ _ _ rfl
  have n2 := renderQuad_tangent_eq renderQuad_triangle2 _ _ _ _ rfl
  rw [t1, b1, normalize_two_x, normalize_two_y] at n1
  rw [t2, b2, normalize_two_x, normalize_two_y] at n2
  refine ⟨⟨d1, d2⟩, ⟨f1, f2⟩, ⟨t1, t2⟩, ⟨b1, b2⟩, ⟨n1.1, n2.1⟩, ⟨n1.2, n2.2⟩, ?_, ?_, ?_, ?_,
    rfl⟩
  · rw [n1.1, n1.2]; norm_num [vec3.dot]
  · rw [n1.1]; norm_num [vec3.dot, renderQuad_nm]
  · rw [n1.2]; norm_num [vec3.dot, renderQuad_nm]
  · rw [n1.1, n1.2]; norm_num [vec3.cross, renderQuad_nm]

theorem App_run_replicate_add (a b : Nat) (i : (Key → Bool) × float) (s : App) :
    App.run (List.replicate (a + b) i) s
      = App.run (List.replicate b i) (App.run (List.replicate a i) s) := by
  simp only [App.run, List.replicate_add, List.foldl_append]

theorem heightScale_Q_200 :
    (App.run (List.replicate 200 (onlyKey .GLFW_KEY_Q, float.zero)) App.initial).heightScale.units
      = -975 * 2 ^ 116 := by
  decide!

theorem heightScale_Q_201 :
    (App.run (List.replicate 201 (onlyKey .GLFW_KEY_Q, float.zero)) App.initial).heightScale.units
      = 0 := by
  decide!

theorem heightScale_E_300 :
    App.run (List.replicate 300 (onlyKey .GLFW_KEY_E, float.zero)) App.initial
      = { heightScale := ⟨16777111 * 2 ^ 123⟩, windowShouldClose := false,
          cameraCalls := [] } := by
  decide!

theorem heightScale_E_600 :
    App.run (List.replicate 300 (onlyKey .GLFW_KEY_E, float.zero))
        { heightScale := ⟨16777111 * 2 ^ 123⟩, windowShouldClose := false, cameraCalls := [] }
      = { heightScale := ⟨1677707 * 2 ^ 127⟩, windowShouldClose := false,
          cameraCalls := [] } := by
  decide!

theorem heightScale_E_900 :
    App.run (List.replicate 300 (onlyKey .GLFW_KEY_E, float.zero))
        { heightScale := ⟨1677707 * 2 ^ 127⟩, windowShouldClose := false, cameraCalls := [] }
      = { heightScale := ⟨2306857 * 2 ^ 127⟩, windowShouldClose := false,
          cameraCalls := [] } := by
  decide!

theorem heightScale_E_1200 :
    App.run (List.replicate 300 (onlyKey .GLFW_KEY_E, float.zero))
        { heightScale := ⟨2306857 * 2 ^ 127⟩, windowShouldClose := false, cameraCalls := [] }
      = { heightScale := ⟨91751 * 2 ^ 132⟩, windowShouldClose := false,
          cameraCalls := [] } := by
  decide!

theorem heightScale_E_1500 :
    App.run (List.replicate 300 (onlyKey .GLFW_KEY_E, float.zero))
        { heightScale := ⟨91751 * 2 ^ 132⟩, windowShouldClose := false, cameraCalls := [] }
      = { heightScale := ⟨3565207 * 2 ^ 127⟩, windowShouldClose := false,
          cameraCalls := [] } := by
  decide!

theorem heightScale_E_1800 :
    App.run (List.replicate 300 (onlyKey .GLFW_KEY_E, float.zero))
        { heightScale := ⟨3565207 * 2 ^ 127⟩, windowShouldClose := false, cameraCalls := [] }
      = { heightScale := ⟨2097191 * 2 ^ 128⟩, windowShouldClose := false,
          cameraCalls := [] } := by
  decide!

theorem heightScale_E_all :
    (App.run (List.replicate 1800 (onlyKey .GLFW_KEY_E, float.zero)) App.initial).heightScale.units
      = 2097191 * 2 ^ 128 := by
  rw [show (1800 : Nat) = 300 + 300 + 300 + 300 + 300 + 300 from rfl]
  simp only [App_run_replicate_add, heightScale_E_300, heightScale_E_600, heightScale_E_900,
    heightScale_E_1200, heightScale_E_1500, heightScale_E_1800]

/-- C19. Two hundred `processInput` calls with only Q pressed, from the initial
`heightScale` (the `float` nearest to 0.1), leave `heightScale` at `-975 / 8589934592`,
which is below 0; the next such call sets it to 0.  One thousand eight hundred calls
with only E pressed leave it at `2097191 / 2097152`, which is above 1. -/
theorem C19_heightScale_leaves_range :
    App.initial.heightScale.toRat = 13421773 / 134217728 ∧
    (float.literal 5 10000).toRat = 8589935 / 17179869184 ∧
    (App.run (List.replicate 200 (onlyKey .GLFW_KEY_Q, float.zero))
        App.initial).heightScale.toRat = -975 / 8589934592 ∧
    (App.run (List.replicate 200 (onlyKey .GLFW_KEY_Q, float.zero))
        App.initial).heightScale.toRat < 0 ∧
    (App.run (List.replicate 201 (onlyKey .GLFW_KEY_Q, float.zero))
        App.initial).heightScale.toRat = 0 ∧
    (App.run (List.replicate 1800 (onlyKey .GLFW_KEY_E, float.zero))
        App.initial).heightScale.toRat = 2097191 / 2097152 ∧
    1 < (App.run (List.replicate 1800 (onlyKey .GLFW_KEY_E, float.zero))
        App.initial).heightScale.toRat := by
  have h0 : App.initial.heightScale.units = 13421773 * 2 ^ 122 := by decide!
  have hc : (float.literal 5 10000).units = 8589935 * 2 ^ 115 := by decide!
  simp only [float.toRat, h0, hc, heightScale_Q_200, heightScale_Q_201, heightScale_E_all]
  norm_num

end AdvancedShaders
